import Mathlib

/-!
Verification of the persistence layer of the gym-tracking application
(src/gym/database.py together with src/gym/settings.py).

The development is a shallow embedding:

* the four pure query builders (`_construct_insert_query`,
  `_construct_update_query`, `_construct_select_query`,
  `_construct_delete_query`) are translated function-for-function, with the
  Python loop over `enumerate(fields_dct.items())` and its `i < _max`
  last-element test rendered as structural recursion distinguishing the last
  list element;
* the routing executor `_execute_query` is translated over an abstract engine
  interface (run a statement, commit, fetchall);
* the connection lifecycle (`_init_db` / `init_db`) is translated over a small
  connection state;
* the SQLite-backed behaviour of the repository entry points
  (insert/get/update/delete per table) is modelled as explicit state passing
  over a `Store`, following the schema declared in `init_db`
  (NOT NULL, CHECK, UNIQUE, INTEGER PRIMARY KEY, and the foreign keys of the
  session_details table, with `pragma foreign_keys=ON` in force).

Python dictionaries are rendered as association lists `List (String × _)`
whose order is the insertion order of the dictionary.
-/

namespace GymDB

/-- SQLite storage value: NULL, INTEGER, REAL or TEXT (the application never
stores blobs).  REAL is modelled as a rational number. -/
inductive Value where
  | null
  | int (n : Int)
  | real (q : Rat)
  | text (s : String)
deriving DecidableEq

/-- SQLite equality as used by `=` in WHERE clauses and by comparisons:
NULL compares equal to nothing (yielding no match), integers and reals
compare numerically, text compares by content, and values of different
storage classes are unequal. -/
def sqlEq : Value → Value → Bool
  | Value.null, _ => false
  | _, Value.null => false
  | Value.int n, Value.int m => n == m
  | Value.int n, Value.real q => (n : Rat) == q
  | Value.real q, Value.int n => q == (n : Rat)
  | Value.real p, Value.real q => p == q
  | Value.text s, Value.text t => s == t
  | _, _ => false

/-- Python `" ".join`, specialised to the nonempty piece lists produced by the
query builders (on the empty list it returns the empty string). -/
def join_space : List String → String
  | [] => ""
  | [s] => s
  | s :: rest => s ++ " " ++ join_space rest

/-- Joining with an arbitrary separator; used for the direct renderings of the
generated statements that the order theorems compare against. -/
def join_with (sep : String) : List String → String
  | [] => ""
  | [s] => s
  | s :: rest => s ++ sep ++ join_with sep rest

/-- Number of occurrences of a character in a string; used to count the
positional `?` placeholders of a generated statement. -/
def count_char (c : Char) (s : String) : Nat := s.data.count c

/- Table names from src/gym/settings.py. -/

def SESSION_TABLE : String := "session"

def EXERCISE_TABLE : String := "exercise"

def SESSION_DETAILS_TABLE : String := "session_details"

def INTENSITY_TABLE : String := "intensity"

/-!  The query builders of src/gym/database.py.  Each one takes the field
dictionary as an association list in insertion order; the value type is a
parameter because the builders never inspect the values. -/

/-- Loop body of `_construct_update_query`: for each key/value pair the Python
code appends `"k=?,"` when `i < _max` (some pair follows) and `"k=?"` for the
last pair, collecting the values in `args` in the same order. -/
def update_set_parts {α : Type} : List (String × α) → List String × List α
  | [] => ([], [])
  | [(k, v)] => ([k ++ "=?"], [v])
  | (k, v) :: rest =>
      let p := update_set_parts rest
      ((k ++ "=?,") :: p.1, v :: p.2)

/-- Translation of `_construct_update_query(table, _id, fields_dct)`:
returns the statement text `UPDATE <table> SET k1=?, k2=?, ... WHERE _id=?`
and the argument list `[v1, v2, ..., _id]`. -/
def _construct_update_query {α : Type} (table : String) (_id : α)
    (fields_dct : List (String × α)) : String × List α :=
  let p := update_set_parts fields_dct
  (join_space (("UPDATE " ++ table ++ " SET") :: (p.1 ++ ["WHERE _id=?"])),
   p.2 ++ [_id])

/-- Loop body of `_construct_insert_query` for the pairs after the first one:
a middle pair contributes `"k,"` to the column pieces and `"?,"` to the values
string, the last pair contributes `"k)"` and `"?)"`. -/
def insert_tail_parts {α : Type} : List (String × α) → List String × String × List α
  | [] => ([], "", [])
  | [(k, v)] => ([k ++ ")"], "?)", [v])
  | (k, v) :: rest =>
      let p := insert_tail_parts rest
      ((k ++ ",") :: p.1, "?," ++ p.2.1, v :: p.2.2)

/-- Translation of `_construct_insert_query(table, fields_dct)`: on an empty
dictionary the loop is skipped and the result is the bare text
`INSERT INTO <table>` with `None` as the arguments (the Python code returns
`args if args else None`); otherwise the first pair opens the parenthesised
column list and values string and the remaining pairs are handled by
`insert_tail_parts`. -/
def _construct_insert_query {α : Type} (table : String)
    (fields_dct : List (String × α)) : String × Option (List α) :=
  match fields_dct with
  | [] => (join_space [("INSERT INTO " ++ table)], none)
  | [(k, v)] =>
      (join_space [("INSERT INTO " ++ table), "(" ++ k ++ ")", "VALUES " ++ "(?)"],
       some [v])
  | (k, v) :: rest =>
      let p := insert_tail_parts rest
      (join_space ((("INSERT INTO " ++ table) :: ("(" ++ k ++ ",") :: p.1)
          ++ ["VALUES " ++ ("(?," ++ p.2.1)]),
       some (v :: p.2.2))

/-- Loop body of `_construct_select_query`: each pair contributes `"k=?"` and
its value, with the keyword `AND` interposed between consecutive pairs. -/
def select_where_parts {α : Type} : List (String × α) → List String × List α
  | [] => ([], [])
  | [(k, v)] => ([k ++ "=?"], [v])
  | (k, v) :: rest =>
      let p := select_where_parts rest
      ((k ++ "=?") :: "AND" :: p.1, v :: p.2)

/-- Translation of `_construct_select_query(table, constraint)`: with an empty
constraint it yields `SELECT * FROM <table>` and `None`; otherwise it appends
`WHERE k1=? AND k2=? ...` and returns the values in order. -/
def _construct_select_query {α : Type} (table : String)
    (constraint : List (String × α)) : String × Option (List α) :=
  match constraint with
  | [] => (join_space [("SELECT * FROM " ++ table)], none)
  | fs =>
      let p := select_where_parts fs
      (join_space (("SELECT * FROM " ++ table) :: "WHERE" :: p.1),
       some p.2)

/-- Translation of `_construct_delete_query(table, _id)`. -/
def _construct_delete_query {α : Type} (table : String) (_id : α) : String × List α :=
  ("DELETE FROM " ++ table ++ " WHERE _id=?", [_id])

/-- Statement executed by `insert_session` when called with no keyword
arguments: it bypasses the query builder and issues a DEFAULT VALUES insert. -/
def insert_session_default_stmt : String :=
  "INSERT INTO " ++ SESSION_TABLE ++ " DEFAULT VALUES"

/-- Arity of an optional argument collection; an execution with `None`
arguments supplies no values. -/
def args_count {α : Type} : Option (List α) → Nat
  | none => 0
  | some l => l.length

/-! Translation of `_execute_query`.  The sqlite3 connection and cursor are
abstracted into an interface with the three capabilities the function uses:
running a statement (with or without bound arguments), committing, and
fetching all result rows of the cursor. -/

/-- Translation of the Python `str.startswith` test. -/
def starts_with (s pre : String) : Bool := pre.data.isPrefixOf s.data

/-- Translation of the Python `str.lower()` call: lowercase character by
character. -/
def str_lower (s : String) : String := String.mk (s.data.map Char.toLower)

/-- Abstract interface to the sqlite3 connection/cursor pair. -/
structure EngineOps (σ ρ : Type) where
  runStmt : σ → String → Option (List Value) → σ
  commit : σ → σ
  fetchall : σ → List ρ

/-- Concrete engine recording executed statements and commits in a log and
returning a fixed result set; used to exercise the routing theorem. -/
def log_engine : EngineOps (List String) Nat :=
  { runStmt := fun l q _ => l ++ [q]
    commit := fun l => l ++ ["COMMIT"]
    fetchall := fun _ => [42] }

/-- State after the `cursor.execute` call at the top of `_execute_query`:
`if args:` is false for both `None` and an empty list, in which case the
statement is executed without bound arguments. -/
def _exec_stmt_step {σ ρ : Type} (ops : EngineOps σ ρ) (st : σ) (query : String)
    (args : Option (List Value)) : σ :=
  match args with
  | some l => if l.isEmpty then ops.runStmt st query none else ops.runStmt st query (some l)
  | none => ops.runStmt st query none

/-- Translation of `_execute_query(query, args)`: execute the statement, then
commit when the lowercased text starts with insert, delete or update, fetch
all rows when it starts with select, and otherwise do neither. -/
def _execute_query {σ ρ : Type} (ops : EngineOps σ ρ) (st : σ) (query : String)
    (args : Option (List Value)) : σ × Option (List ρ) :=
  let st1 := _exec_stmt_step ops st query args
  if starts_with (str_lower query) "insert" || starts_with (str_lower query) "delete"
      || starts_with (str_lower query) "update" then
    (ops.commit st1, none)
  else if starts_with (str_lower query) "select" then
    (st1, some (ops.fetchall st1))
  else
    (st1, none)

/-! Translation of the connection lifecycle (`_init_db` and `init_db`).
The module-level connection/cursor pair is a connection identity; opening a
fresh connection draws a new identity from a counter. -/

/-- Module-level connection state of src/gym/database.py. -/
structure DBState where
  conn : Option Nat
  next_conn : Nat
  foreign_keys_on : Bool
  tables : List String
deriving DecidableEq

/-- Translation of `_init_db`: connect only when no connection is held
(the directory creation touches the filesystem only and is not modelled). -/
def _init_db (s : DBState) : DBState :=
  if s.conn.isNone then
    { s with conn := some s.next_conn, next_conn := s.next_conn + 1 }
  else s

/-- Effect of executing `pragma foreign_keys=ON;` on the connection. -/
def run_pragma_foreign_keys (s : DBState) : DBState :=
  { s with foreign_keys_on := true }

/-- Effect of executing one `CREATE TABLE IF NOT EXISTS` statement. -/
def create_table_if_absent (s : DBState) (t : String) : DBState :=
  if t ∈ s.tables then s else { s with tables := s.tables ++ [t] }

/-- Translation of `init_db`: ensure the connection, enable foreign keys and
create the four tables if absent, in the order of the source. -/
def init_db (s : DBState) : DBState :=
  create_table_if_absent
    (create_table_if_absent
      (create_table_if_absent
        (create_table_if_absent
          (run_pragma_foreign_keys (_init_db s))
          EXERCISE_TABLE)
        SESSION_TABLE)
      INTENSITY_TABLE)
    SESSION_DETAILS_TABLE

/-! Model of the SQLite-backed store behind the repository entry points.
A row is an association list from column names to values (built so that its
keys are exactly the columns of its table, in schema order); a table is a
list of rows in insertion order.  The constraint checks below follow the
schema declared in `init_db`, evaluated as SQLite evaluates them with
`pragma foreign_keys=ON` in force: NOT NULL rejects NULL, a CHECK whose
result is NULL passes, text sorts above every number in comparisons, UNIQUE
treats NULLs as pairwise distinct, and an INTEGER PRIMARY KEY column only
accepts integers. -/

/-- Database row: column name to stored value, in schema column order. -/
abbrev Row := List (String × Value)

/-- Error classes raised by the sqlite3 driver: statement-level errors
(unknown column), constraint violations, and datatype mismatches on an
INTEGER PRIMARY KEY column. -/
inductive DbError where
  | operationalError
  | integrityError
  | mismatchError
deriving DecidableEq

/-- Value of a column in a row (NULL when the row lacks the column; rows are
always built with their full column set). -/
def cell (r : Row) (c : String) : Value :=
  match r.find? (fun kv => kv.1 == c) with
  | some kv => kv.2
  | none => Value.null

/-- Overwrite one column of a row. -/
def set_cell (r : Row) (c : String) (v : Value) : Row :=
  r.map (fun kv => if kv.1 = c then (kv.1, v) else kv)

/-- NOT NULL constraint. -/
def val_not_null (v : Value) : Bool := !(v == Value.null)

/-- CHECK (x != ''): NULL passes the check; a number compared with text is
always unequal. -/
def check_nonempty_text (v : Value) : Bool :=
  match v with
  | Value.null => true
  | w => !(sqlEq w (Value.text ""))

/-- CHECK (x >= 0): NULL passes; text sorts above every number. -/
def check_ge_zero (v : Value) : Bool :=
  match v with
  | Value.null => true
  | Value.int n => decide (0 ≤ n)
  | Value.real q => decide (0 ≤ q)
  | Value.text _ => true

/-- CHECK (x > 0): NULL passes; text sorts above every number. -/
def check_pos (v : Value) : Bool :=
  match v with
  | Value.null => true
  | Value.int n => decide (0 < n)
  | Value.real q => decide (0 < q)
  | Value.text _ => true

/-- CHECK (x <= 10): NULL passes; text sorts above every number. -/
def check_le_ten (v : Value) : Bool :=
  match v with
  | Value.null => true
  | Value.int n => decide (n ≤ 10)
  | Value.real q => decide (q ≤ 10)
  | Value.text _ => false

/-- CHECK (x < 11): NULL passes; text sorts above every number. -/
def check_lt_eleven (v : Value) : Bool :=
  match v with
  | Value.null => true
  | Value.int n => decide (n < 11)
  | Value.real q => decide (q < 11)
  | Value.text _ => false

/-- Static description of one table: columns in declaration order, column
defaults, the conjunction of the NOT NULL and CHECK constraints of a row,
and the UNIQUE columns. -/
structure TableSchema where
  columns : List String
  defaults : List (String × Value)
  row_ok : Row → Bool
  unique_cols : List String

/-- Schema of the exercise table. -/
def exercise_schema : TableSchema :=
  { columns := ["_id", "name", "acronym", "description"]
    defaults := []
    row_ok := fun r =>
      val_not_null (cell r "name") && check_nonempty_text (cell r "name")
        && val_not_null (cell r "acronym") && check_nonempty_text (cell r "acronym")
    unique_cols := ["acronym"] }

/-- Schema of the session table; the timestamp default stands for the
CURRENT_TIMESTAMP value assigned at insertion time. -/
def session_schema : TableSchema :=
  { columns := ["_id", "timestamp"]
    defaults := [("timestamp", Value.text "CURRENT_TIMESTAMP")]
    row_ok := fun r => val_not_null (cell r "timestamp")
    unique_cols := [] }

/-- Schema of the intensity table. -/
def intensity_schema : TableSchema :=
  { columns := ["_id", "level", "description"]
    defaults := []
    row_ok := fun r =>
      val_not_null (cell r "level") && check_pos (cell r "level")
        && check_lt_eleven (cell r "level")
    unique_cols := ["level"] }

/-- Schema of the session_details table.  Neither session_id nor exercise_id
carries a NOT NULL constraint in the source schema. -/
def session_details_schema : TableSchema :=
  { columns := ["_id", "session_id", "exercise_id", "weight_kg", "reps_total",
                "sets", "intensity"]
    defaults := [("weight_kg", Value.int 0)]
    row_ok := fun r =>
      val_not_null (cell r "weight_kg") && check_ge_zero (cell r "weight_kg")
        && val_not_null (cell r "reps_total") && check_pos (cell r "reps_total")
        && val_not_null (cell r "sets") && check_pos (cell r "sets")
        && val_not_null (cell r "intensity") && check_ge_zero (cell r "intensity")
        && check_le_ten (cell r "intensity")
    unique_cols := [] }

/-- Fresh row before the INSERT field values are applied: the store-assigned
_id, declared defaults for defaulted columns, NULL elsewhere. -/
def default_row (ts : TableSchema) (newId : Int) : Row :=
  ts.columns.map (fun c =>
    (c, if c = "_id" then Value.int newId
        else match ts.defaults.find? (fun kv => kv.1 == c) with
             | some kv => kv.2
             | none => Value.null))

/-- Set one named column: an unknown column is a statement-level error, and
the INTEGER PRIMARY KEY column only accepts an integer. -/
def set_cell_checked (ts : TableSchema) (r : Row) (c : String) (v : Value) :
    Except DbError Row :=
  if ts.columns.contains c then
    if c = "_id" then
      match v with
      | Value.int _ => Except.ok (set_cell r c v)
      | _ => Except.error DbError.mismatchError
    else Except.ok (set_cell r c v)
  else Except.error DbError.operationalError

/-- Apply a field dictionary to a row, column by column. -/
def apply_fields (ts : TableSchema) : Row → List (String × Value) → Except DbError Row
  | r, [] => Except.ok r
  | r, (k, v) :: rest =>
      match set_cell_checked ts r k v with
      | Except.ok r2 => apply_fields ts r2 rest
      | Except.error e => Except.error e

/-- Foreign-key reference check for one child value: a NULL reference is
allowed, a non-NULL one must match the _id of some parent row. -/
def fk_ref (v : Value) (parents : List Row) : Bool :=
  (v == Value.null) || parents.any (fun p => sqlEq (cell p "_id") v)

/-- Pairwise distinctness under SQLite equality; NULLs never compare equal,
matching the UNIQUE treatment of NULLs. -/
def sql_distinct : List Value → Bool
  | [] => true
  | v :: rest => !(rest.any (fun w => sqlEq w v)) && sql_distinct rest

/-- UNIQUE check for a newly inserted row against the existing rows. -/
def insert_unique_ok (ts : TableSchema) (r : Row) (rows : List Row) : Bool :=
  ts.unique_cols.all (fun u => !(rows.any (fun o => sqlEq (cell o u) (cell r u))))

/-- Next value of the rowid counter after a row has been stored. -/
def next_id_after (nextId : Int) (r : Row) : Int :=
  match cell r "_id" with
  | Value.int n => if nextId ≤ n then n + 1 else nextId
  | _ => nextId + 1

/-- INSERT into one table (foreign keys, which involve other tables, are
checked by the per-table entry points): build the row from the defaults and
the field dictionary, then enforce NOT NULL/CHECK, UNIQUE and the primary
key.  Returns the new row, the new table and the next rowid. -/
def insert_into (ts : TableSchema) (rows : List Row) (nextId : Int)
    (fields : List (String × Value)) : Except DbError (Row × List Row × Int) :=
  match apply_fields ts (default_row ts nextId) fields with
  | Except.error e => Except.error e
  | Except.ok r =>
      if ts.row_ok r && insert_unique_ok ts r rows
          && !(rows.any (fun o => sqlEq (cell o "_id") (cell r "_id"))) then
        Except.ok (r, rows ++ [r], next_id_after nextId r)
      else Except.error DbError.integrityError

/-- UPDATE of the rows of one table: apply the field dictionary to every row
whose _id matches the WHERE argument.  Returns the new table together with
the list of (old row, new row) pairs that were modified. -/
def update_rows (ts : TableSchema) (idv : Value) (fields : List (String × Value)) :
    List Row → Except DbError (List Row × List (Row × Row))
  | [] => Except.ok ([], [])
  | r :: rest =>
      if sqlEq (cell r "_id") idv then
        match apply_fields ts r fields with
        | Except.error e => Except.error e
        | Except.ok r2 =>
            match update_rows ts idv fields rest with
            | Except.error e => Except.error e
            | Except.ok p => Except.ok (r2 :: p.1, (r, r2) :: p.2)
      else
        match update_rows ts idv fields rest with
        | Except.error e => Except.error e
        | Except.ok p => Except.ok (r :: p.1, p.2)

/-- Constraints evaluated on the rows an UPDATE modified: their NOT NULL and
CHECK constraints, and (when some row was modified) UNIQUE columns and the
primary key over the resulting table.  An UPDATE matching no row checks
nothing, as in SQLite. -/
def update_checks (ts : TableSchema) (newRows : List Row) (ps : List (Row × Row)) :
    Bool :=
  ps.all (fun p => ts.row_ok p.2)
    && (ps.isEmpty || ts.unique_cols.all (fun u => sql_distinct (newRows.map (fun r => cell r u))))
    && (ps.isEmpty || sql_distinct (newRows.map (fun r => cell r "_id")))

/-- Foreign-key NO ACTION check when parent rows are updated: any child that
referenced the old key of a modified parent row must still reference the key
of some row of the updated parent table. -/
def parent_update_fk_ok (children : List Row) (childCol : String)
    (ps : List (Row × Row)) (newParents : List Row) : Bool :=
  ps.all (fun p =>
    children.all (fun d =>
      !(sqlEq (cell p.1 "_id") (cell d childCol))
        || newParents.any (fun t => sqlEq (cell t "_id") (cell d childCol))))

/-- SELECT * with conjunctive equality filters: unknown filter columns are a
statement-level error, otherwise the matching rows are returned in table
order as tuples of column values in schema column order. -/
def select_rows (ts : TableSchema) (rows : List Row)
    (filters : List (String × Value)) : Except DbError (List (List Value)) :=
  if filters.all (fun kv => ts.columns.contains kv.1) then
    Except.ok ((rows.filter (fun r => filters.all (fun kv => sqlEq (cell r kv.1) kv.2))).map
      (fun r => ts.columns.map (fun c => cell r c)))
  else Except.error DbError.operationalError

/-- The persisted store: the four tables and their rowid counters. -/
structure Store where
  exercises : List Row
  sessions : List Row
  session_details : List Row
  intensities : List Row
  next_exercise_id : Int
  next_session_id : Int
  next_details_id : Int
  next_intensity_id : Int
deriving DecidableEq

/-- Store right after `init_db` has created the four empty tables. -/
def initial_store : Store :=
  { exercises := [], sessions := [], session_details := [], intensities := []
    next_exercise_id := 1, next_session_id := 1, next_details_id := 1
    next_intensity_id := 1 }

/-- Concrete store with two exercises, one session and one session detail
referencing both; used to instantiate the store theorems. -/
def witness_store : Store :=
  { exercises :=
      [[("_id", Value.int 1), ("name", Value.text "Squat"),
        ("acronym", Value.text "SQ"), ("description", Value.null)],
       [("_id", Value.int 2), ("name", Value.text "Bench"),
        ("acronym", Value.text "BP"), ("description", Value.null)]]
    sessions := [[("_id", Value.int 1), ("timestamp", Value.text "CURRENT_TIMESTAMP")]]
    session_details :=
      [[("_id", Value.int 1), ("session_id", Value.int 1),
        ("exercise_id", Value.int 1), ("weight_kg", Value.int 100),
        ("reps_total", Value.int 5), ("sets", Value.int 3),
        ("intensity", Value.int 8)]]
    intensities := []
    next_exercise_id := 3, next_session_id := 2, next_details_id := 2
    next_intensity_id := 1 }

/-- State-level behaviour of `insert_exercise(**kwargs)`.  A mutator returns
the store after the statement together with the error raised, if any; a
failed statement leaves the store unchanged. -/
def insert_exercise (st : Store) (fields : List (String × Value)) :
    Store × Option DbError :=
  match insert_into exercise_schema st.exercises st.next_exercise_id fields with
  | Except.error e => (st, some e)
  | Except.ok (_, rows, nid) =>
      ({ st with exercises := rows, next_exercise_id := nid }, none)

/-- State-level behaviour of `get_exercise(**kwargs)`. -/
def get_exercise (st : Store) (filters : List (String × Value)) :
    Except DbError (List (List Value)) :=
  select_rows exercise_schema st.exercises filters

/-- State-level behaviour of `update_exercise(_id, new_vals)`: with an empty
field mapping the builder emits `UPDATE exercise SET WHERE _id=?`, which is
invalid SQL that sqlite3 rejects at prepare time, and an unknown column in
the SET list is likewise a statement-level error; the exercise table is a
foreign-key parent of session_details.exercise_id, so updated keys are
subject to the NO ACTION check. -/
def update_exercise (st : Store) (idv : Value) (fields : List (String × Value)) :
    Store × Option DbError :=
  if fields.isEmpty then (st, some DbError.operationalError)
  else if !(fields.all (fun kv => exercise_schema.columns.contains kv.1)) then
    (st, some DbError.operationalError)
  else
  match update_rows exercise_schema idv fields st.exercises with
  | Except.error e => (st, some e)
  | Except.ok (rows, ps) =>
      if update_checks exercise_schema rows ps
          && parent_update_fk_ok st.session_details "exercise_id" ps rows then
        ({ st with exercises := rows }, none)
      else (st, some DbError.integrityError)

/-- State-level behaviour of `delete_exercise(_id)`: the reference from
session_details.exercise_id has no ON DELETE action, so deleting a row that
a session detail still references (with no surviving row carrying the same
key) is a constraint violation and the statement has no effect. -/
def delete_exercise (st : Store) (idv : Value) : Store × Option DbError :=
  let deleted := st.exercises.filter (fun r => sqlEq (cell r "_id") idv)
  let kept := st.exercises.filter (fun r => !(sqlEq (cell r "_id") idv))
  if deleted.any (fun r =>
      st.session_details.any (fun d => sqlEq (cell r "_id") (cell d "exercise_id"))
        && !(kept.any (fun t => sqlEq (cell t "_id") (cell r "_id")))) then
    (st, some DbError.integrityError)
  else ({ st with exercises := kept }, none)

/-- State-level behaviour of `insert_session(**kwargs)`.  With no fields the
source executes `INSERT INTO session DEFAULT VALUES`, which stores the same
row the defaults produce (a fresh _id and the default timestamp). -/
def insert_session (st : Store) (fields : List (String × Value)) :
    Store × Option DbError :=
  match insert_into session_schema st.sessions st.next_session_id fields with
  | Except.error e => (st, some e)
  | Except.ok (_, rows, nid) =>
      ({ st with sessions := rows, next_session_id := nid }, none)

/-- State-level behaviour of `get_session(**kwargs)`. -/
def get_session (st : Store) (filters : List (String × Value)) :
    Except DbError (List (List Value)) :=
  select_rows session_schema st.sessions filters

/-- State-level behaviour of `update_session(_id, **kwargs)`: an empty field
mapping yields the invalid statement `UPDATE session SET WHERE _id=?` and is
rejected at prepare time; the session table is a foreign-key parent of
session_details.session_id. -/
def update_session (st : Store) (idv : Value) (fields : List (String × Value)) :
    Store × Option DbError :=
  if fields.isEmpty then (st, some DbError.operationalError)
  else if !(fields.all (fun kv => session_schema.columns.contains kv.1)) then
    (st, some DbError.operationalError)
  else
  match update_rows session_schema idv fields st.sessions with
  | Except.error e => (st, some e)
  | Except.ok (rows, ps) =>
      if update_checks session_schema rows ps
          && parent_update_fk_ok st.session_details "session_id" ps rows then
        ({ st with sessions := rows }, none)
      else (st, some DbError.integrityError)

/-- State-level behaviour of `delete_session(_id)`: the reference from
session_details.session_id is declared ON DELETE CASCADE, so the details
referencing a deleted session row are deleted with it. -/
def delete_session (st : Store) (idv : Value) : Store × Option DbError :=
  let deleted := st.sessions.filter (fun r => sqlEq (cell r "_id") idv)
  let kept := st.sessions.filter (fun r => !(sqlEq (cell r "_id") idv))
  let details2 := st.session_details.filter
      (fun d => !(deleted.any (fun r => sqlEq (cell r "_id") (cell d "session_id"))))
  ({ st with sessions := kept, session_details := details2 }, none)

/-- State-level behaviour of `insert_intensity(**kwargs)`. -/
def insert_intensity (st : Store) (fields : List (String × Value)) :
    Store × Option DbError :=
  match insert_into intensity_schema st.intensities st.next_intensity_id fields with
  | Except.error e => (st, some e)
  | Except.ok (_, rows, nid) =>
      ({ st with intensities := rows, next_intensity_id := nid }, none)

/-- State-level behaviour of `get_intensity(**kwargs)`. -/
def get_intensity (st : Store) (filters : List (String × Value)) :
    Except DbError (List (List Value)) :=
  select_rows intensity_schema st.intensities filters

/-- State-level behaviour of `update_intensity(_id, new_vals)`: an empty
field mapping yields an invalid statement rejected at prepare time; no table
references the intensity table, so there is no parent-side check. -/
def update_intensity (st : Store) (idv : Value) (fields : List (String × Value)) :
    Store × Option DbError :=
  if fields.isEmpty then (st, some DbError.operationalError)
  else if !(fields.all (fun kv => intensity_schema.columns.contains kv.1)) then
    (st, some DbError.operationalError)
  else
  match update_rows intensity_schema idv fields st.intensities with
  | Except.error e => (st, some e)
  | Except.ok (rows, ps) =>
      if update_checks intensity_schema rows ps then
        ({ st with intensities := rows }, none)
      else (st, some DbError.integrityError)

/-- State-level behaviour of `delete_intensity(_id)`. -/
def delete_intensity (st : Store) (idv : Value) : Store × Option DbError :=
  ({ st with intensities :=
      st.intensities.filter (fun r => !(sqlEq (cell r "_id") idv)) }, none)

/-- State-level behaviour of `insert_session_details(**kwargs)`: both
foreign keys of the new row are checked against their parent tables. -/
def insert_session_details (st : Store) (fields : List (String × Value)) :
    Store × Option DbError :=
  match insert_into session_details_schema st.session_details st.next_details_id
      fields with
  | Except.error e => (st, some e)
  | Except.ok (r, rows, nid) =>
      if fk_ref (cell r "session_id") st.sessions
          && fk_ref (cell r "exercise_id") st.exercises then
        ({ st with session_details := rows, next_details_id := nid }, none)
      else (st, some DbError.integrityError)

/-- State-level behaviour of `get_session_details(**kwargs)`. -/
def get_session_details (st : Store) (filters : List (String × Value)) :
    Except DbError (List (List Value)) :=
  select_rows session_details_schema st.session_details filters

/-- State-level behaviour of `update_session_details(_id, **kwargs)`: an
empty field mapping yields an invalid statement rejected at prepare time;
the foreign keys of every modified row are re-checked. -/
def update_session_details (st : Store) (idv : Value)
    (fields : List (String × Value)) : Store × Option DbError :=
  if fields.isEmpty then (st, some DbError.operationalError)
  else if !(fields.all (fun kv => session_details_schema.columns.contains kv.1)) then
    (st, some DbError.operationalError)
  else
  match update_rows session_details_schema idv fields st.session_details with
  | Except.error e => (st, some e)
  | Except.ok (rows, ps) =>
      if update_checks session_details_schema rows ps
          && ps.all (fun p => fk_ref (cell p.2 "session_id") st.sessions
              && fk_ref (cell p.2 "exercise_id") st.exercises) then
        ({ st with session_details := rows }, none)
      else (st, some DbError.integrityError)

/-- State-level behaviour of `delete_session_details(_id)`; session details
have no children, so a delete never violates a constraint. -/
def delete_session_details (st : Store) (idv : Value) : Store × Option DbError :=
  ({ st with session_details :=
      st.session_details.filter (fun r => !(sqlEq (cell r "_id") idv)) }, none)

/-- Per-row session reference condition of the data-model invariant: the
session_id of a session-detail row is NULL or references an existing
session. -/
def detail_session_ok (st : Store) : Prop :=
  ∀ d ∈ st.session_details, fk_ref (cell d "session_id") st.sessions = true

/-- Store states reachable from the freshly initialized store through the
repository mutators (the read entry points do not change the store). -/
inductive Reachable : Store → Prop where
  | init : Reachable initial_store
  | ins_exercise (st : Store) (fs : List (String × Value)) :
      Reachable st → Reachable (insert_exercise st fs).1
  | upd_exercise (st : Store) (idv : Value) (fs : List (String × Value)) :
      Reachable st → Reachable (update_exercise st idv fs).1
  | del_exercise (st : Store) (idv : Value) :
      Reachable st → Reachable (delete_exercise st idv).1
  | ins_session (st : Store) (fs : List (String × Value)) :
      Reachable st → Reachable (insert_session st fs).1
  | upd_session (st : Store) (idv : Value) (fs : List (String × Value)) :
      Reachable st → Reachable (update_session st idv fs).1
  | del_session (st : Store) (idv : Value) :
      Reachable st → Reachable (delete_session st idv).1
  | ins_details (st : Store) (fs : List (String × Value)) :
      Reachable st → Reachable (insert_session_details st fs).1
  | upd_details (st : Store) (idv : Value) (fs : List (String × Value)) :
      Reachable st → Reachable (update_session_details st idv fs).1
  | del_details (st : Store) (idv : Value) :
      Reachable st → Reachable (delete_session_details st idv).1
  | ins_intensity (st : Store) (fs : List (String × Value)) :
      Reachable st → Reachable (insert_intensity st fs).1
  | upd_intensity (st : Store) (idv : Value) (fs : List (String × Value)) :
      Reachable st → Reachable (update_intensity st idv fs).1
  | del_intensity (st : Store) (idv : Value) :
      Reachable st → Reachable (delete_intensity st idv).1

/-! Helper lemmas about the joins and the builder loops.  These relate the
piece lists produced by the (faithfully translated) loops to direct renderings
of the statements in which the column order is visible. -/

theorem sqlEq_symm (a b : Value) : sqlEq a b = sqlEq b a := by
  cases a <;> cases b <;> simp [sqlEq] <;> exact eq_comm

theorem sqlEq_trans {a b c : Value} (h₁ : sqlEq a b = true) (h₂ : sqlEq b c = true) :
    sqlEq a c = true := by
  cases a <;> cases b <;> cases c <;> simp_all [sqlEq]

theorem join_space_cons (s : String) (l : List String) (h : l ≠ []) :
    join_space (s :: l) = s ++ " " ++ join_space l := by
  match l with
  | [] => exact absurd rfl h
  | x :: xs => rfl

theorem join_with_cons (sep s : String) (l : List String) (h : l ≠ []) :
    join_with sep (s :: l) = s ++ sep ++ join_with sep l := by
  match l with
  | [] => exact absurd rfl h
  | x :: xs => rfl

theorem update_set_parts_args {α : Type} :
    ∀ fs : List (String × α), (update_set_parts fs).2 = fs.map Prod.snd
  | [] => rfl
  | [(k, v)] => rfl
  | (k, v) :: (k2, v2) :: rest => by
      have ih := update_set_parts_args ((k2, v2) :: rest)
      simp only [update_set_parts, List.map_cons] at ih ⊢
      rw [ih]

theorem select_where_parts_args {α : Type} :
    ∀ fs : List (String × α), (select_where_parts fs).2 = fs.map Prod.snd
  | [] => rfl
  | [(k, v)] => rfl
  | (k, v) :: (k2, v2) :: rest => by
      have ih := select_where_parts_args ((k2, v2) :: rest)
      simp only [select_where_parts, List.map_cons] at ih ⊢
      rw [ih]

theorem insert_tail_parts_args {α : Type} :
    ∀ fs : List (String × α), (insert_tail_parts fs).2.2 = fs.map Prod.snd
  | [] => rfl
  | [(k, v)] => rfl
  | (k, v) :: (k2, v2) :: rest => by
      have ih := insert_tail_parts_args ((k2, v2) :: rest)
      simp only [insert_tail_parts, List.map_cons] at ih ⊢
      rw [ih]

theorem update_set_parts_ne_nil {α : Type} (fs : List (String × α)) (h : fs ≠ []) :
    (update_set_parts fs).1 ≠ [] := by
  match fs with
  | [] => exact absurd rfl h
  | [(k, v)] => simp [update_set_parts]
  | (k, v) :: (k2, v2) :: rest => simp [update_set_parts]

theorem select_where_parts_ne_nil {α : Type} (fs : List (String × α)) (h : fs ≠ []) :
    (select_where_parts fs).1 ≠ [] := by
  match fs with
  | [] => exact absurd rfl h
  | [(k, v)] => simp [select_where_parts]
  | (k, v) :: (k2, v2) :: rest => simp [select_where_parts]

theorem join_with_map_cons {α : Type} (sep : String) (f : α → String) (x : α)
    (l : List α) (h : l ≠ []) :
    join_with sep ((x :: l).map f) = f x ++ sep ++ join_with sep (l.map f) := by
  rw [List.map_cons]
  refine join_with_cons _ _ _ ?_
  match l with
  | [] => exact absurd rfl h
  | y :: ys => simp

theorem update_set_parts_text {α : Type} :
    ∀ (fs : List (String × α)), fs ≠ [] → ∀ w : String,
      join_space ((update_set_parts fs).1 ++ [w]) =
        join_with ", " (fs.map (fun kv => kv.1 ++ "=?")) ++ " " ++ w
  | [], h, _ => absurd rfl h
  | [(k, v)], _, w => by
      simp only [update_set_parts, join_with, List.map_cons, List.map_nil,
        List.singleton_append]
      rfl
  | (k, v) :: (k2, v2) :: rest, _, w => by
      have ih := update_set_parts_text ((k2, v2) :: rest) (by simp) w
      simp only [update_set_parts, List.cons_append]
      rw [join_space_cons _ _ (by simp), ih,
        join_with_map_cons ", " (fun kv => kv.1 ++ "=?") (k, v) ((k2, v2) :: rest)
          (by simp)]
      simp only [String.append_assoc]
      rfl

theorem select_where_parts_text {α : Type} :
    ∀ (fs : List (String × α)), fs ≠ [] →
      join_space (select_where_parts fs).1 =
        join_with " AND " (fs.map (fun kv => kv.1 ++ "=?"))
  | [], h => absurd rfl h
  | [(k, v)], _ => by
      simp [select_where_parts, join_space, join_with]
  | (k, v) :: (k2, v2) :: rest, _ => by
      have ih := select_where_parts_text ((k2, v2) :: rest) (by simp)
      simp only [select_where_parts]
      rw [join_space_cons _ _ (by simp),
        join_space_cons _ _ (select_where_parts_ne_nil _ (by simp)), ih,
        join_with_map_cons " AND " (fun kv => kv.1 ++ "=?") (k, v) ((k2, v2) :: rest)
          (by simp)]
      simp only [String.append_assoc]
      rfl

theorem insert_tail_parts_values {α : Type} :
    ∀ (fs : List (String × α)), fs ≠ [] →
      (insert_tail_parts fs).2.1 =
        join_with "," (List.replicate fs.length "?") ++ ")"
  | [], h => absurd rfl h
  | [(k, v)], _ => by simp [insert_tail_parts, join_with]
  | (k, v) :: (k2, v2) :: rest, _ => by
      have ih := insert_tail_parts_values ((k2, v2) :: rest) (by simp)
      simp only [insert_tail_parts]
      rw [ih]
      have hr : join_with "," (List.replicate (((k, v) :: (k2, v2) :: rest).length) "?")
          = "?" ++ "," ++ join_with "," (List.replicate (((k2, v2) :: rest).length) "?") := by
        rw [List.length_cons, List.replicate_succ]
        refine join_with_cons _ _ _ ?_
        simp [List.replicate_succ]
      rw [hr]
      simp only [String.append_assoc]
      rfl

theorem insert_tail_parts_text {α : Type} :
    ∀ (fs : List (String × α)), fs ≠ [] → ∀ w : String,
      join_space ((insert_tail_parts fs).1 ++ [w]) =
        join_with ", " (fs.map Prod.fst) ++ ") " ++ w
  | [], h, _ => absurd rfl h
  | [(k, v)], _, w => by
      simp only [insert_tail_parts, join_with, List.map_cons, List.map_nil,
        List.singleton_append]
      rw [join_space_cons _ _ (by simp)]
      simp only [String.append_assoc]
      rfl
  | (k, v) :: (k2, v2) :: rest, _, w => by
      have ih := insert_tail_parts_text ((k2, v2) :: rest) (by simp) w
      simp only [insert_tail_parts, List.cons_append]
      rw [join_space_cons _ _ (by simp), ih,
        join_with_map_cons ", " Prod.fst (k, v) ((k2, v2) :: rest) (by simp)]
      simp only [String.append_assoc]
      rfl

/-- Direct rendering of the INSERT statement produced by the builder on a
nonempty field dictionary, with the column list in dictionary order. -/
theorem insert_query_eq {α : Type} (t : String) :
    ∀ (fs : List (String × α)), fs ≠ [] →
      _construct_insert_query t fs =
        ("INSERT INTO " ++ t ++ " (" ++ join_with ", " (fs.map Prod.fst)
            ++ ") VALUES (" ++ join_with "," (List.replicate fs.length "?") ++ ")",
         some (fs.map Prod.snd))
  | [], h => absurd rfl h
  | [(k, v)], _ => by
      simp only [_construct_insert_query, join_space, join_with, List.map_cons,
        List.map_nil, List.length_cons, List.length_nil, List.replicate_succ,
        List.replicate_zero]
      simp only [Prod.mk.injEq]
      constructor
      · simp only [String.append_assoc]
        rfl
      · trivial
  | (k, v) :: (k2, v2) :: rest, _ => by
      have hne : ((k2, v2) :: rest : List (String × α)) ≠ [] := by simp
      simp only [_construct_insert_query, Prod.mk.injEq, List.cons_append]
      constructor
      · rw [join_space_cons _ _ (by simp), join_space_cons _ _ (by simp),
          insert_tail_parts_text _ hne, insert_tail_parts_values _ hne,
          join_with_map_cons ", " Prod.fst (k, v) ((k2, v2) :: rest) (by simp)]
        have hr : join_with ","
              (List.replicate (((k, v) :: (k2, v2) :: rest).length) "?")
            = "?" ++ "," ++ join_with ","
                (List.replicate (((k2, v2) :: rest).length) "?") := by
          rw [List.length_cons, List.replicate_succ]
          refine join_with_cons _ _ _ ?_
          simp [List.replicate_succ]
        rw [hr]
        simp only [String.append_assoc]
        rfl
      · rw [insert_tail_parts_args]
        rfl

/-- Direct rendering of the UPDATE statement: assignments in dictionary order
followed by the WHERE clause, arguments in dictionary order followed by the
row id. -/
theorem update_query_eq {α : Type} (t : String) (idv : α)
    (fs : List (String × α)) (h : fs ≠ []) :
    _construct_update_query t idv fs =
      ("UPDATE " ++ t ++ " SET " ++ join_with ", " (fs.map (fun kv => kv.1 ++ "=?"))
          ++ " WHERE _id=?",
       fs.map Prod.snd ++ [idv]) := by
  simp only [_construct_update_query, Prod.mk.injEq]
  constructor
  · rw [join_space_cons _ _ (by simp), update_set_parts_text _ h]
    simp only [String.append_assoc]
    rfl
  · rw [update_set_parts_args]

/-- Direct rendering of the SELECT statement: conjunctive equality filters in
dictionary order, arguments in the same order. -/
theorem select_query_eq {α : Type} (t : String) :
    ∀ (fs : List (String × α)), fs ≠ [] →
      _construct_select_query t fs =
        ("SELECT * FROM " ++ t ++ " WHERE "
            ++ join_with " AND " (fs.map (fun kv => kv.1 ++ "=?")),
         some (fs.map Prod.snd))
  | [], h => absurd rfl h
  | (k, v) :: rest, _ => by
      simp only [_construct_select_query, Prod.mk.injEq]
      constructor
      · rw [join_space_cons _ _ (by simp),
          join_space_cons _ _ (select_where_parts_ne_nil _ (by simp)),
          select_where_parts_text _ (by simp)]
        simp only [String.append_assoc]
        rfl
      · rw [select_where_parts_args]

theorem insert_query_empty {α : Type} (t : String) :
    _construct_insert_query t ([] : List (String × α)) = ("INSERT INTO " ++ t, none) :=
  rfl

theorem select_query_empty {α : Type} (t : String) :
    _construct_select_query t ([] : List (String × α)) = ("SELECT * FROM " ++ t, none) :=
  rfl

/-! Placeholder counting. -/

theorem count_char_append (c : Char) (a b : String) :
    count_char c (a ++ b) = count_char c a + count_char c b := by
  simp [count_char, String.data_append, List.count_append]

theorem count_placeholders_replicate :
    ∀ n : Nat, count_char '?' (join_with "," (List.replicate n "?")) = n
  | 0 => by decide
  | 1 => by decide
  | (n + 2) => by
      have ih := count_placeholders_replicate (n + 1)
      rw [List.replicate_succ, join_with_cons _ _ _ (by simp),
        count_char_append, count_char_append, ih]
      have c1 : count_char '?' "?" = 1 := by decide
      have c2 : count_char '?' "," = 0 := by decide
      omega

theorem count_join_keys_zero {α : Type} (sep : String)
    (hsep : count_char '?' sep = 0) :
    ∀ fs : List (String × α), (∀ kv ∈ fs, count_char '?' kv.1 = 0) →
      count_char '?' (join_with sep (fs.map Prod.fst)) = 0
  | [], _ => by simp [join_with, count_char]
  | [(k, v)], h => by
      simpa [join_with] using h (k, v) (by simp)
  | (k, v) :: (k2, v2) :: rest, h => by
      have ih := count_join_keys_zero sep hsep ((k2, v2) :: rest)
        (fun kv hkv => h kv (List.mem_cons_of_mem _ hkv))
      have hk : count_char '?' k = 0 := h (k, v) (by simp)
      rw [List.map_cons, join_with_cons _ _ _ (by simp), count_char_append,
        count_char_append, hk, hsep]
      simpa using ih

theorem count_join_marks {α : Type} (sep : String)
    (hsep : count_char '?' sep = 0) :
    ∀ fs : List (String × α), (∀ kv ∈ fs, count_char '?' kv.1 = 0) →
      count_char '?' (join_with sep (fs.map (fun kv => kv.1 ++ "=?"))) = fs.length
  | [], _ => by simp [join_with, count_char]
  | [(k, v)], h => by
      have hk : count_char '?' k = 0 := h (k, v) (by simp)
      have c1 : count_char '?' "=?" = 1 := by decide
      simp [join_with, count_char_append, hk, c1]
  | (k, v) :: (k2, v2) :: rest, h => by
      have ih := count_join_marks sep hsep ((k2, v2) :: rest)
        (fun kv hkv => h kv (List.mem_cons_of_mem _ hkv))
      have hk : count_char '?' k = 0 := h (k, v) (by simp)
      have c1 : count_char '?' "=?" = 1 := by decide
      rw [List.map_cons, join_with_cons _ _ _ (by simp), count_char_append,
        count_char_append, count_char_append, hk, hsep, c1, ih]
      simp [List.length_cons]
      omega

/-! Prefix dispatch. -/

theorem starts_with_excl {s p₁ p₂ : String} {x₁ x₂ : Char} {t₁ t₂ : List Char}
    (h₁ : p₁.data = x₁ :: t₁) (h₂ : p₂.data = x₂ :: t₂) (hne : x₁ ≠ x₂)
    (h : starts_with s p₁ = true) : starts_with s p₂ = false := by
  unfold starts_with at h ⊢
  rw [h₁] at h
  rw [h₂]
  cases l : s.data with
  | nil => rw [l] at h; simp [List.isPrefixOf] at h
  | cons x xs =>
      rw [l] at h
      simp only [List.isPrefixOf, Bool.and_eq_true, beq_iff_eq] at h
      obtain ⟨rfl, -⟩ := h
      have hb : (x₂ == x₁) = false := by
        simp only [beq_eq_false_iff_ne, ne_eq]
        exact fun he => hne he.symm
      simp [List.isPrefixOf, hb]

/-! Connection lifecycle lemmas. -/

theorem create_table_if_absent_conn (s : DBState) (t : String) :
    (create_table_if_absent s t).conn = s.conn := by
  unfold create_table_if_absent; split <;> rfl

theorem create_table_if_absent_fk (s : DBState) (t : String) :
    (create_table_if_absent s t).foreign_keys_on = s.foreign_keys_on := by
  unfold create_table_if_absent; split <;> rfl

theorem mem_create_table_if_absent_self (s : DBState) (t : String) :
    t ∈ (create_table_if_absent s t).tables := by
  unfold create_table_if_absent
  split
  · assumption
  · simp

theorem mem_create_table_if_absent_of_mem (s : DBState) (t t' : String)
    (h : t' ∈ s.tables) : t' ∈ (create_table_if_absent s t).tables := by
  unfold create_table_if_absent
  split
  · exact h
  · simp [h]

theorem create_table_if_absent_of_mem (s : DBState) (t : String)
    (h : t ∈ s.tables) : create_table_if_absent s t = s := by
  unfold create_table_if_absent
  simp [h]

theorem _init_db_of_isSome (s : DBState) (h : s.conn.isSome = true) :
    _init_db s = s := by
  unfold _init_db
  cases hc : s.conn with
  | none => rw [hc] at h; simp at h
  | some v => simp [hc]

theorem run_pragma_of_on (s : DBState) (h : s.foreign_keys_on = true) :
    run_pragma_foreign_keys s = s := by
  cases s
  simp_all [run_pragma_foreign_keys]

theorem _init_db_conn_isSome (s : DBState) : (_init_db s).conn.isSome = true := by
  unfold _init_db
  cases hc : s.conn <;> simp [hc]

theorem init_db_conn_isSome (s : DBState) : (init_db s).conn.isSome = true := by
  unfold init_db
  rw [create_table_if_absent_conn, create_table_if_absent_conn,
    create_table_if_absent_conn, create_table_if_absent_conn,
    show (run_pragma_foreign_keys (_init_db s)).conn = (_init_db s).conn from rfl]
  exact _init_db_conn_isSome s

theorem init_db_fk_on (s : DBState) : (init_db s).foreign_keys_on = true := by
  unfold init_db
  rw [create_table_if_absent_fk, create_table_if_absent_fk,
    create_table_if_absent_fk, create_table_if_absent_fk]
  rfl

theorem init_db_tables (s : DBState) :
    EXERCISE_TABLE ∈ (init_db s).tables ∧ SESSION_TABLE ∈ (init_db s).tables
      ∧ INTENSITY_TABLE ∈ (init_db s).tables
      ∧ SESSION_DETAILS_TABLE ∈ (init_db s).tables := by
  unfold init_db
  refine ⟨?_, ?_, ?_, ?_⟩
  · exact mem_create_table_if_absent_of_mem _ _ _
      (mem_create_table_if_absent_of_mem _ _ _
        (mem_create_table_if_absent_of_mem _ _ _
          (mem_create_table_if_absent_self _ _)))
  · exact mem_create_table_if_absent_of_mem _ _ _
      (mem_create_table_if_absent_of_mem _ _ _
        (mem_create_table_if_absent_self _ _))
  · exact mem_create_table_if_absent_of_mem _ _ _
      (mem_create_table_if_absent_self _ _)
  · exact mem_create_table_if_absent_self _ _

theorem init_db_idem (s : DBState) : init_db (init_db s) = init_db s := by
  have h4 := init_db_tables s
  conv_lhs => rw [init_db]
  rw [_init_db_of_isSome _ (init_db_conn_isSome s),
    run_pragma_of_on _ (init_db_fk_on s),
    create_table_if_absent_of_mem _ _ h4.1,
    create_table_if_absent_of_mem _ _ h4.2.1,
    create_table_if_absent_of_mem _ _ h4.2.2.1,
    create_table_if_absent_of_mem _ _ h4.2.2.2]

/-! Claim theorems for the query builders, the executor and the lifecycle. -/

/-- C1, corrected: for every table name, the insert query builder applied to
an empty field mapping returns the bare text INSERT INTO table with no
argument values (not a DEFAULT VALUES statement); the statement for the
default-timestamp case of Session is issued directly by insert_session,
bypassing the builder. -/
theorem claim1_insert_builder_empty :
    (∀ table : String,
      _construct_insert_query table ([] : List (String × Value))
        = ("INSERT INTO " ++ table, none))
    ∧ insert_session_default_stmt
        = "INSERT INTO " ++ SESSION_TABLE ++ " DEFAULT VALUES"
    ∧ (_construct_insert_query SESSION_TABLE ([] : List (String × Value))).1
        ≠ insert_session_default_stmt :=
  ⟨fun table => insert_query_empty table, rfl, by decide⟩

/-- C1, counterexample to the claim as stated: on the session table and the
empty field mapping the builder returns the bare text INSERT INTO session,
which is not the DEFAULT VALUES statement used for the default-timestamp
case. -/
theorem claim1_counterexample :
    _construct_insert_query SESSION_TABLE ([] : List (String × Value))
      = ("INSERT INTO session", none)
    ∧ insert_session_default_stmt = "INSERT INTO session DEFAULT VALUES"
    ∧ ("INSERT INTO session" : String) ≠ "INSERT INTO session DEFAULT VALUES" :=
  ⟨by decide, rfl, by decide⟩

/-- C3: execute routes by the case-insensitively lowered leading keyword of
the statement: INSERT, DELETE and UPDATE commit immediately after execution
and return no rows; SELECT returns all rows the cursor fetches, in order and
without a limit; any other statement executes without commit and without
fetch. -/
theorem claim3_execute_query_routing {σ ρ : Type} (ops : EngineOps σ ρ) (st : σ)
    (query : String) (args : Option (List Value)) :
    (starts_with (str_lower query) "insert" = true
        ∨ starts_with (str_lower query) "delete" = true
        ∨ starts_with (str_lower query) "update" = true →
      _execute_query ops st query args =
        (ops.commit (_exec_stmt_step ops st query args), none))
    ∧ (starts_with (str_lower query) "select" = true →
      _execute_query ops st query args =
        (_exec_stmt_step ops st query args,
         some (ops.fetchall (_exec_stmt_step ops st query args))))
    ∧ (starts_with (str_lower query) "insert" = false →
       starts_with (str_lower query) "delete" = false →
       starts_with (str_lower query) "update" = false →
       starts_with (str_lower query) "select" = false →
      _execute_query ops st query args = (_exec_stmt_step ops st query args, none)) := by
  refine ⟨?_, ?_, ?_⟩
  · intro h
    unfold _execute_query
    rcases h with h | h | h <;> simp [h]
  · intro h
    have hi : starts_with (str_lower query) "insert" = false :=
      starts_with_excl rfl rfl (by decide) h
    have hd : starts_with (str_lower query) "delete" = false :=
      starts_with_excl rfl rfl (by decide) h
    have hu : starts_with (str_lower query) "update" = false :=
      starts_with_excl rfl rfl (by decide) h
    unfold _execute_query
    simp [h, hi, hd, hu]
  · intro h1 h2 h3 h4
    unfold _execute_query
    simp [h1, h2, h3, h4]

/-- C3 witness: the three routes on concrete statements against the logging
engine (an INSERT commits and returns nothing, a SELECT fetches, a pragma
does neither). -/
theorem claim3_witness :
    _execute_query log_engine [] "Insert INTO exercise (name) VALUES (?)" none
      = (["Insert INTO exercise (name) VALUES (?)", "COMMIT"], none)
    ∧ _execute_query log_engine [] "SELECT * FROM exercise" none
      = (["SELECT * FROM exercise"], some [42])
    ∧ _execute_query log_engine [] "pragma foreign_keys=ON;" none
      = (["pragma foreign_keys=ON;"], none) := by
  refine ⟨?_, ?_, ?_⟩
  · exact ((claim3_execute_query_routing log_engine []
      "Insert INTO exercise (name) VALUES (?)" none).1 (Or.inl (by decide))).trans
      (by decide)
  · exact ((claim3_execute_query_routing log_engine []
      "SELECT * FROM exercise" none).2.1 (by decide)).trans (by decide)
  · exact ((claim3_execute_query_routing log_engine []
      "pragma foreign_keys=ON;" none).2.2 (by decide) (by decide) (by decide)
      (by decide)).trans (by decide)

/-- C4: on a nonempty field mapping the insert, update and select builders
keep the keys of the mapping, in insertion order, in the generated column,
assignment and filter lists, and return the values in the same order; for
update the arguments are the field values followed by the id. -/
theorem claim4_builder_order {α : Type} (table : String) (idv : α)
    (fields : List (String × α)) (h : fields ≠ []) :
    _construct_insert_query table fields
      = ("INSERT INTO " ++ table ++ " (" ++ join_with ", " (fields.map Prod.fst)
          ++ ") VALUES (" ++ join_with "," (List.replicate fields.length "?") ++ ")",
         some (fields.map Prod.snd))
    ∧ _construct_update_query table idv fields
      = ("UPDATE " ++ table ++ " SET "
          ++ join_with ", " (fields.map (fun kv => kv.1 ++ "=?")) ++ " WHERE _id=?",
         fields.map Prod.snd ++ [idv])
    ∧ _construct_select_query table fields
      = ("SELECT * FROM " ++ table ++ " WHERE "
          ++ join_with " AND " (fields.map (fun kv => kv.1 ++ "=?")),
         some (fields.map Prod.snd)) :=
  ⟨insert_query_eq table fields h, update_query_eq table idv fields h,
   select_query_eq table fields h⟩

/-- C4 witness: the three builders on a concrete two-field mapping. -/
theorem claim4_witness :
    _construct_insert_query "exercise"
        [("name", Value.text "Squat"), ("acronym", Value.text "SQ")]
      = ("INSERT INTO exercise (name, acronym) VALUES (?,?)",
         some [Value.text "Squat", Value.text "SQ"])
    ∧ _construct_update_query "exercise" (Value.int 1)
        [("name", Value.text "Squat"), ("acronym", Value.text "SQ")]
      = ("UPDATE exercise SET name=?, acronym=? WHERE _id=?",
         [Value.text "Squat", Value.text "SQ", Value.int 1])
    ∧ _construct_select_query "exercise"
        [("name", Value.text "Squat"), ("acronym", Value.text "SQ")]
      = ("SELECT * FROM exercise WHERE name=? AND acronym=?",
         some [Value.text "Squat", Value.text "SQ"]) := by
  have h := claim4_builder_order "exercise" (Value.int 1)
      [("name", Value.text "Squat"), ("acronym", Value.text "SQ")] (by decide)
  exact ⟨h.1.trans (by decide), h.2.1.trans (by decide), h.2.2.trans (by decide)⟩

/-- C9: opening the store is idempotent: a second init_db on an already-open
state is a no-op that changes nothing, the connection is held, foreign-key
enforcement is enabled and the four tables exist. -/
theorem claim9_init_db_idempotent (s : DBState) :
    init_db (init_db s) = init_db s
    ∧ (init_db s).conn.isSome = true
    ∧ (init_db s).foreign_keys_on = true
    ∧ EXERCISE_TABLE ∈ (init_db s).tables
    ∧ SESSION_TABLE ∈ (init_db s).tables
    ∧ INTENSITY_TABLE ∈ (init_db s).tables
    ∧ SESSION_DETAILS_TABLE ∈ (init_db s).tables :=
  ⟨init_db_idem s, init_db_conn_isSome s, init_db_fk_on s,
   (init_db_tables s).1, (init_db_tables s).2.1, (init_db_tables s).2.2.1,
   (init_db_tables s).2.2.2⟩

/-- C10: for every table and field mapping whose names carry no question
mark, each builder produces exactly as many positional placeholders in the
statement text as argument values, and the insert and select builders return
None exactly when the argument collection would be empty (update and delete
always carry the id argument). -/
theorem claim10_placeholder_arity {α : Type} (table : String) (idv : α)
    (fields : List (String × α)) (ht : count_char '?' table = 0)
    (hk : ∀ kv ∈ fields, count_char '?' kv.1 = 0) :
    (count_char '?' (_construct_insert_query table fields).1
        = args_count (_construct_insert_query table fields).2)
    ∧ ((_construct_insert_query table fields).2 = none ↔ fields = [])
    ∧ (count_char '?' (_construct_select_query table fields).1
        = args_count (_construct_select_query table fields).2)
    ∧ ((_construct_select_query table fields).2 = none ↔ fields = [])
    ∧ (count_char '?' (_construct_update_query table idv fields).1
        = (_construct_update_query table idv fields).2.length)
    ∧ (_construct_update_query table idv fields).2 ≠ []
    ∧ (count_char '?' (_construct_delete_query table idv).1
        = (_construct_delete_query table idv).2.length) := by
  have cDel : count_char '?' ("DELETE FROM " ++ table ++ " WHERE _id=?") = 1 := by
    rw [count_char_append, count_char_append, ht]
    have c1 : count_char '?' "DELETE FROM " = 0 := by decide
    have c2 : count_char '?' " WHERE _id=?" = 1 := by decide
    omega
  match fields with
  | [] =>
      refine ⟨?_, by simp [insert_query_empty], ?_, by simp [select_query_empty],
        ?_, ?_, ?_⟩
      · rw [insert_query_empty]
        simp only [args_count]
        rw [count_char_append, ht]
        have : count_char '?' "INSERT INTO " = 0 := by decide
        omega
      · rw [select_query_empty]
        simp only [args_count]
        rw [count_char_append, ht]
        have : count_char '?' "SELECT * FROM " = 0 := by decide
        omega
      · have h0 : _construct_update_query table idv ([] : List (String × α))
            = ("UPDATE " ++ table ++ " SET" ++ " " ++ "WHERE _id=?", [idv]) := rfl
        rw [h0]
        simp only [List.length_cons, List.length_nil]
        rw [count_char_append, count_char_append, count_char_append,
          count_char_append, ht]
        have c1 : count_char '?' "UPDATE " = 0 := by decide
        have c2 : count_char '?' " SET" = 0 := by decide
        have c3 : count_char '?' "WHERE _id=?" = 1 := by decide
        have c4 : count_char '?' " " = 0 := by decide
        omega
      · have h0 : _construct_update_query table idv ([] : List (String × α))
            = ("UPDATE " ++ table ++ " SET" ++ " " ++ "WHERE _id=?", [idv]) := rfl
        rw [h0]
        simp
      · exact cDel
  | (k, v) :: rest =>
      have hne : ((k, v) :: rest : List (String × α)) ≠ [] := by simp
      have hins := insert_query_eq table ((k, v) :: rest) hne
      have hsel := select_query_eq table ((k, v) :: rest) hne
      have hupd := update_query_eq table idv ((k, v) :: rest) hne
      have cIns : count_char '?' (_construct_insert_query table ((k, v) :: rest)).1
          = ((k, v) :: rest).length := by
        rw [hins]
        simp only
        rw [count_char_append, count_char_append, count_char_append,
          count_char_append, count_char_append, count_char_append, ht,
          count_join_keys_zero ", " (by decide) _ hk,
          count_placeholders_replicate]
        have c1 : count_char '?' "INSERT INTO " = 0 := by decide
        have c2 : count_char '?' " (" = 0 := by decide
        have c3 : count_char '?' ") VALUES (" = 0 := by decide
        have c4 : count_char '?' ")" = 0 := by decide
        omega
      have cSel : count_char '?' (_construct_select_query table ((k, v) :: rest)).1
          = ((k, v) :: rest).length := by
        rw [hsel]
        simp only
        rw [count_char_append, count_char_append, count_char_append, ht,
          count_join_marks " AND " (by decide) _ hk]
        have c1 : count_char '?' "SELECT * FROM " = 0 := by decide
        have c2 : count_char '?' " WHERE " = 0 := by decide
        omega
      have cUpd : count_char '?' (_construct_update_query table idv ((k, v) :: rest)).1
          = ((k, v) :: rest).length + 1 := by
        rw [hupd]
        simp only
        rw [count_char_append, count_char_append, count_char_append,
          count_char_append, ht, count_join_marks ", " (by decide) _ hk]
        have c1 : count_char '?' "UPDATE " = 0 := by decide
        have c2 : count_char '?' " SET " = 0 := by decide
        have c3 : count_char '?' " WHERE _id=?" = 1 := by decide
        omega
      refine ⟨?_, ?_, ?_, ?_, ?_, ?_, cDel⟩
      · rw [cIns, hins]
        simp [args_count]
      · rw [hins]
        simp
      · rw [cSel, hsel]
        simp [args_count]
      · rw [hsel]
        simp
      · rw [cUpd, hupd]
        simp
      · rw [hupd]
        simp

/-- C10 witness: the arity invariant at a concrete table and mapping. -/
theorem claim10_witness :
    count_char '?' (_construct_insert_query "exercise"
        [("name", Value.text "x"), ("acronym", Value.text "y")]).1
      = args_count (_construct_insert_query "exercise"
        [("name", Value.text "x"), ("acronym", Value.text "y")]).2
    ∧ count_char '?' (_construct_update_query "exercise" (Value.int 1)
        [("name", Value.text "x"), ("acronym", Value.text "y")]).1
      = (_construct_update_query "exercise" (Value.int 1)
        [("name", Value.text "x"), ("acronym", Value.text "y")]).2.length
    ∧ count_char '?' (_construct_delete_query "exercise" (Value.int 1)).1
      = (_construct_delete_query "exercise" (Value.int 1)).2.length := by
  have h := claim10_placeholder_arity "exercise" (Value.int 1)
      [("name", Value.text "x"), ("acronym", Value.text "y")] (by decide)
      (by intro kv hkv; fin_cases hkv <;> decide)
  exact ⟨h.1, h.2.2.2.2.1, h.2.2.2.2.2.2⟩

/-! Row and table lemmas for the store model. -/

theorem cell_set_cell_ne (r : Row) (k c : String) (v : Value) (h : c ≠ k) :
    cell (set_cell r k v) c = cell r c := by
  unfold cell set_cell
  rw [List.find?_map]
  have hp : ((fun kv : String × Value => kv.1 == c) ∘
      (fun kv : String × Value => if kv.1 = k then (kv.1, v) else kv))
      = fun kv : String × Value => kv.1 == c := by
    funext kv
    by_cases hk : kv.1 = k <;> simp [hk]
  rw [hp]
  cases hf : r.find? (fun kv : String × Value => kv.1 == c) with
  | none => rfl
  | some kv =>
      have h1 := List.find?_some hf
      have hc : kv.1 = c := by simpa using h1
      have hkk : ¬ kv.1 = k := by rw [hc]; exact h
      simp [hkk]

theorem set_cell_checked_ok {ts : TableSchema} {r : Row} {k : String} {v : Value}
    {r2 : Row} (h : set_cell_checked ts r k v = Except.ok r2) :
    r2 = set_cell r k v := by
  unfold set_cell_checked at h
  split at h
  · split at h
    · cases v <;> simp_all
    · simp only [Except.ok.injEq] at h
      exact h.symm
  · simp at h

theorem apply_fields_frame {ts : TableSchema} :
    ∀ (fs : List (String × Value)) (r r' : Row),
      apply_fields ts r fs = Except.ok r' →
      ∀ c : String, (∀ kv ∈ fs, kv.1 ≠ c) → cell r' c = cell r c
  | [], r, r', h, c, _ => by
      simp only [apply_fields, Except.ok.injEq] at h
      rw [← h]
  | (k, v) :: rest, r, r', h, c, hc => by
      unfold apply_fields at h
      cases hs : set_cell_checked ts r k v with
      | error e => rw [hs] at h; cases h
      | ok r2 =>
          rw [hs] at h
          have ih := apply_fields_frame rest r2 r' h c
            (fun kv hkv => hc kv (List.mem_cons_of_mem _ hkv))
          rw [ih, set_cell_checked_ok hs,
            cell_set_cell_ne _ _ _ _ (Ne.symm (hc (k, v) (List.mem_cons_self _ _)))]

theorem update_rows_no_match {ts : TableSchema} {idv : Value}
    {fields : List (String × Value)} :
    ∀ rows : List Row, (∀ r ∈ rows, sqlEq (cell r "_id") idv = false) →
      update_rows ts idv fields rows = Except.ok (rows, [])
  | [], _ => rfl
  | r :: rest, h => by
      have ih := @update_rows_no_match ts idv fields rest
        (fun x hx => h x (List.mem_cons_of_mem _ hx))
      unfold update_rows
      rw [h r (List.mem_cons_self _ _)]
      simp [ih]

theorem update_rows_mem_of_unmatched {ts : TableSchema} {idv : Value}
    {fields : List (String × Value)} :
    ∀ {rows newRows : List Row} {ps : List (Row × Row)},
      update_rows ts idv fields rows = Except.ok (newRows, ps) →
      ∀ {r : Row}, r ∈ rows → sqlEq (cell r "_id") idv = false → r ∈ newRows := by
  intro rows
  induction rows with
  | nil =>
      intro newRows ps h r hr
      simp at hr
  | cons x rest ih =>
      intro newRows ps h r hr hm
      unfold update_rows at h
      cases hx : sqlEq (cell x "_id") idv with
      | true =>
          rw [hx] at h
          simp only [if_true] at h
          cases ha : apply_fields ts x fields with
          | error e => rw [ha] at h; cases h
          | ok r2 =>
              rw [ha] at h
              cases hrec : update_rows ts idv fields rest with
              | error e => rw [hrec] at h; cases h
              | ok p =>
                  rw [hrec] at h
                  simp only [Except.ok.injEq, Prod.mk.injEq] at h
                  obtain ⟨h1, -⟩ := h
                  subst h1
                  rcases List.mem_cons.1 hr with rfl | hr'
                  · rw [hx] at hm; cases hm
                  · exact List.mem_cons_of_mem _ (ih hrec hr' hm)
      | false =>
          rw [hx] at h
          simp only [Bool.false_eq_true, if_false] at h
          cases hrec : update_rows ts idv fields rest with
          | error e => rw [hrec] at h; cases h
          | ok p =>
              rw [hrec] at h
              simp only [Except.ok.injEq, Prod.mk.injEq] at h
              obtain ⟨h1, -⟩ := h
              subst h1
              rcases List.mem_cons.1 hr with rfl | hr'
              · exact List.mem_cons_self _ _
              · exact List.mem_cons_of_mem _ (ih hrec hr' hm)

theorem update_rows_pair_of_matched {ts : TableSchema} {idv : Value}
    {fields : List (String × Value)} :
    ∀ {rows newRows : List Row} {ps : List (Row × Row)},
      update_rows ts idv fields rows = Except.ok (newRows, ps) →
      ∀ {r : Row}, r ∈ rows → sqlEq (cell r "_id") idv = true →
        ∃ r2, (r, r2) ∈ ps := by
  intro rows
  induction rows with
  | nil =>
      intro newRows ps h r hr
      simp at hr
  | cons x rest ih =>
      intro newRows ps h r hr hm
      unfold update_rows at h
      cases hx : sqlEq (cell x "_id") idv with
      | true =>
          rw [hx] at h
          simp only [if_true] at h
          cases ha : apply_fields ts x fields with
          | error e => rw [ha] at h; cases h
          | ok r2 =>
              rw [ha] at h
              cases hrec : update_rows ts idv fields rest with
              | error e => rw [hrec] at h; cases h
              | ok p =>
                  rw [hrec] at h
                  simp only [Except.ok.injEq, Prod.mk.injEq] at h
                  obtain ⟨-, h2⟩ := h
                  subst h2
                  rcases List.mem_cons.1 hr with rfl | hr'
                  · exact ⟨r2, List.mem_cons_self _ _⟩
                  · obtain ⟨r3, hr3⟩ := ih hrec hr' hm
                    exact ⟨r3, List.mem_cons_of_mem _ hr3⟩
      | false =>
          rw [hx] at h
          simp only [Bool.false_eq_true, if_false] at h
          cases hrec : update_rows ts idv fields rest with
          | error e => rw [hrec] at h; cases h
          | ok p =>
              rw [hrec] at h
              simp only [Except.ok.injEq, Prod.mk.injEq] at h
              obtain ⟨-, h2⟩ := h
              subst h2
              rcases List.mem_cons.1 hr with rfl | hr'
              · rw [hx] at hm; cases hm
              · exact ih hrec hr' hm

theorem update_rows_mem_dest {ts : TableSchema} {idv : Value}
    {fields : List (String × Value)} :
    ∀ {rows newRows : List Row} {ps : List (Row × Row)},
      update_rows ts idv fields rows = Except.ok (newRows, ps) →
      ∀ {r' : Row}, r' ∈ newRows → r' ∈ rows ∨ ∃ p ∈ ps, r' = p.2 := by
  intro rows
  induction rows with
  | nil =>
      intro newRows ps h r' hr'
      simp only [update_rows, Except.ok.injEq, Prod.mk.injEq] at h
      obtain ⟨h1, -⟩ := h
      subst h1
      simp at hr'
  | cons x rest ih =>
      intro newRows ps h r' hr'
      unfold update_rows at h
      cases hx : sqlEq (cell x "_id") idv with
      | true =>
          rw [hx] at h
          simp only [if_true] at h
          cases ha : apply_fields ts x fields with
          | error e => rw [ha] at h; cases h
          | ok r2 =>
              rw [ha] at h
              cases hrec : update_rows ts idv fields rest with
              | error e => rw [hrec] at h; cases h
              | ok p =>
                  rw [hrec] at h
                  simp only [Except.ok.injEq, Prod.mk.injEq] at h
                  obtain ⟨h1, h2⟩ := h
                  subst h1
                  subst h2
                  rcases List.mem_cons.1 hr' with rfl | hr''
                  · exact Or.inr ⟨(x, r'), List.mem_cons_self _ _, rfl⟩
                  · rcases ih hrec hr'' with hL | ⟨p2, hp2, he⟩
                    · exact Or.inl (List.mem_cons_of_mem _ hL)
                    · exact Or.inr ⟨p2, List.mem_cons_of_mem _ hp2, he⟩
      | false =>
          rw [hx] at h
          simp only [Bool.false_eq_true, if_false] at h
          cases hrec : update_rows ts idv fields rest with
          | error e => rw [hrec] at h; cases h
          | ok p =>
              rw [hrec] at h
              simp only [Except.ok.injEq, Prod.mk.injEq] at h
              obtain ⟨h1, h2⟩ := h
              subst h1
              subst h2
              rcases List.mem_cons.1 hr' with rfl | hr''
              · exact Or.inl (List.mem_cons_self _ _)
              · rcases ih hrec hr'' with hL | ⟨p2, hp2, he⟩
                · exact Or.inl (List.mem_cons_of_mem _ hL)
                · exact Or.inr ⟨p2, hp2, he⟩

theorem update_rows_spec {ts : TableSchema} {idv : Value}
    {fields : List (String × Value)} :
    ∀ {rows newRows : List Row} {ps : List (Row × Row)},
      update_rows ts idv fields rows = Except.ok (newRows, ps) →
      List.Forall₂ (fun r r' =>
        (sqlEq (cell r "_id") idv = false → r' = r)
        ∧ (sqlEq (cell r "_id") idv = true →
            apply_fields ts r fields = Except.ok r')) rows newRows := by
  intro rows
  induction rows with
  | nil =>
      intro newRows ps h
      simp only [update_rows, Except.ok.injEq, Prod.mk.injEq] at h
      obtain ⟨h1, -⟩ := h
      subst h1
      exact List.Forall₂.nil
  | cons x rest ih =>
      intro newRows ps h
      unfold update_rows at h
      cases hx : sqlEq (cell x "_id") idv with
      | true =>
          rw [hx] at h
          simp only [if_true] at h
          cases ha : apply_fields ts x fields with
          | error e => rw [ha] at h; cases h
          | ok r2 =>
              rw [ha] at h
              cases hrec : update_rows ts idv fields rest with
              | error e => rw [hrec] at h; cases h
              | ok p =>
                  rw [hrec] at h
                  simp only [Except.ok.injEq, Prod.mk.injEq] at h
                  obtain ⟨h1, -⟩ := h
                  subst h1
                  exact List.Forall₂.cons
                    ⟨(fun hf => by rw [hx] at hf; cases hf), fun _ => ha⟩
                    (ih hrec)
      | false =>
          rw [hx] at h
          simp only [Bool.false_eq_true, if_false] at h
          cases hrec : update_rows ts idv fields rest with
          | error e => rw [hrec] at h; cases h
          | ok p =>
              rw [hrec] at h
              simp only [Except.ok.injEq, Prod.mk.injEq] at h
              obtain ⟨h1, -⟩ := h
              subst h1
              exact List.Forall₂.cons
                ⟨fun _ => rfl, (fun ht => by rw [hx] at ht; cases ht)⟩
                (ih hrec)

theorem insert_into_ok_shape {ts : TableSchema} {rows : List Row} {nextId : Int}
    {fields : List (String × Value)} {r : Row} {rows' : List Row} {nid : Int}
    (h : insert_into ts rows nextId fields = Except.ok (r, rows', nid)) :
    rows' = rows ++ [r] := by
  unfold insert_into at h
  cases ha : apply_fields ts (default_row ts nextId) fields with
  | error e => rw [ha] at h; cases h
  | ok r0 =>
      rw [ha] at h
      dsimp only at h
      by_cases hc : (ts.row_ok r0 && insert_unique_ok ts r0 rows
          && !(rows.any (fun o => sqlEq (cell o "_id") (cell r0 "_id")))) = true
      · rw [if_pos hc] at h
        simp only [Except.ok.injEq, Prod.mk.injEq] at h
        obtain ⟨h1, h2, -⟩ := h
        rw [h1] at h2
        exact h2.symm
      · rw [if_neg hc] at h
        cases h

theorem fk_ref_append (v : Value) (l ext : List Row) (h : fk_ref v l = true) :
    fk_ref v (l ++ ext) = true := by
  simp only [fk_ref, List.any_append, Bool.or_eq_true] at h ⊢
  tauto

/-! Frame lemmas: which tables each mutator can touch. -/

theorem insert_exercise_frame (st : Store) (fs : List (String × Value)) :
    (insert_exercise st fs).1.sessions = st.sessions
    ∧ (insert_exercise st fs).1.session_details = st.session_details := by
  unfold insert_exercise
  cases h : insert_into exercise_schema st.exercises st.next_exercise_id fs with
  | error e => exact ⟨rfl, rfl⟩
  | ok x =>
      obtain ⟨r, rows, nid⟩ := x
      exact ⟨rfl, rfl⟩

theorem update_exercise_frame (st : Store) (idv : Value)
    (fs : List (String × Value)) :
    (update_exercise st idv fs).1.sessions = st.sessions
    ∧ (update_exercise st idv fs).1.session_details = st.session_details := by
  unfold update_exercise
  constructor <;> (dsimp only; repeat' split) <;> rfl

theorem delete_exercise_frame (st : Store) (idv : Value) :
    (delete_exercise st idv).1.sessions = st.sessions
    ∧ (delete_exercise st idv).1.session_details = st.session_details := by
  unfold delete_exercise
  constructor <;> (dsimp only; repeat' split) <;> rfl

theorem insert_intensity_frame (st : Store) (fs : List (String × Value)) :
    (insert_intensity st fs).1.sessions = st.sessions
    ∧ (insert_intensity st fs).1.session_details = st.session_details := by
  unfold insert_intensity
  cases h : insert_into intensity_schema st.intensities st.next_intensity_id fs with
  | error e => exact ⟨rfl, rfl⟩
  | ok x =>
      obtain ⟨r, rows, nid⟩ := x
      exact ⟨rfl, rfl⟩

theorem update_intensity_frame (st : Store) (idv : Value)
    (fs : List (String × Value)) :
    (update_intensity st idv fs).1.sessions = st.sessions
    ∧ (update_intensity st idv fs).1.session_details = st.session_details := by
  unfold update_intensity
  constructor <;> (dsimp only; repeat' split) <;> rfl

theorem insert_session_shape (st : Store) (fs : List (String × Value)) :
    (insert_session st fs).1.session_details = st.session_details
    ∧ ∃ ext, (insert_session st fs).1.sessions = st.sessions ++ ext := by
  unfold insert_session
  cases h : insert_into session_schema st.sessions st.next_session_id fs with
  | error e => exact ⟨rfl, ⟨[], by simp⟩⟩
  | ok x =>
      obtain ⟨r, rows, nid⟩ := x
      exact ⟨rfl, ⟨[r], insert_into_ok_shape h⟩⟩

/-- An update with an empty field mapping is rejected as a statement-level
error (the generated `UPDATE exercise SET WHERE _id=?` is invalid SQL) and
leaves the store unchanged, for every id. -/
theorem update_exercise_empty_fields (st : Store) (idv : Value) :
    update_exercise st idv [] = (st, some DbError.operationalError) := rfl

/-- Empty-mapping update on the session table: statement-level error. -/
theorem update_session_empty_fields (st : Store) (idv : Value) :
    update_session st idv [] = (st, some DbError.operationalError) := rfl

/-- Empty-mapping update on the session_details table: statement-level
error. -/
theorem update_session_details_empty_fields (st : Store) (idv : Value) :
    update_session_details st idv [] = (st, some DbError.operationalError) := rfl

/-- Empty-mapping update on the intensity table: statement-level error. -/
theorem update_intensity_empty_fields (st : Store) (idv : Value) :
    update_intensity st idv [] = (st, some DbError.operationalError) := rfl

/-! Preservation of the session reference of every session detail. -/

theorem detail_session_ok_frame {st st' : Store} (hs : st'.sessions = st.sessions)
    (hd : st'.session_details = st.session_details) (h : detail_session_ok st) :
    detail_session_ok st' := by
  unfold detail_session_ok at h ⊢
  rw [hs, hd]
  exact h

theorem insert_exercise_pres (st : Store) (fs : List (String × Value))
    (h : detail_session_ok st) : detail_session_ok (insert_exercise st fs).1 :=
  detail_session_ok_frame (insert_exercise_frame st fs).1
    (insert_exercise_frame st fs).2 h

theorem update_exercise_pres (st : Store) (idv : Value) (fs : List (String × Value))
    (h : detail_session_ok st) : detail_session_ok (update_exercise st idv fs).1 :=
  detail_session_ok_frame (update_exercise_frame st idv fs).1
    (update_exercise_frame st idv fs).2 h

theorem delete_exercise_pres (st : Store) (idv : Value)
    (h : detail_session_ok st) : detail_session_ok (delete_exercise st idv).1 :=
  detail_session_ok_frame (delete_exercise_frame st idv).1
    (delete_exercise_frame st idv).2 h

theorem insert_intensity_pres (st : Store) (fs : List (String × Value))
    (h : detail_session_ok st) : detail_session_ok (insert_intensity st fs).1 :=
  detail_session_ok_frame (insert_intensity_frame st fs).1
    (insert_intensity_frame st fs).2 h

theorem update_intensity_pres (st : Store) (idv : Value) (fs : List (String × Value))
    (h : detail_session_ok st) : detail_session_ok (update_intensity st idv fs).1 :=
  detail_session_ok_frame (update_intensity_frame st idv fs).1
    (update_intensity_frame st idv fs).2 h

theorem delete_intensity_pres (st : Store) (idv : Value)
    (h : detail_session_ok st) : detail_session_ok (delete_intensity st idv).1 := h

theorem insert_session_pres (st : Store) (fs : List (String × Value))
    (h : detail_session_ok st) : detail_session_ok (insert_session st fs).1 := by
  obtain ⟨hd, ext, hs⟩ := insert_session_shape st fs
  intro d hdm
  rw [hd] at hdm
  rw [hs]
  exact fk_ref_append _ _ _ (h d hdm)

theorem delete_session_pres (st : Store) (idv : Value)
    (h : detail_session_ok st) : detail_session_ok (delete_session st idv).1 := by
  intro d hdm
  have hd : (delete_session st idv).1.session_details
      = st.session_details.filter (fun d' => !((st.sessions.filter
          (fun r => sqlEq (cell r "_id") idv)).any
          (fun r => sqlEq (cell r "_id") (cell d' "session_id")))) := rfl
  have hs : (delete_session st idv).1.sessions
      = st.sessions.filter (fun r => !(sqlEq (cell r "_id") idv)) := rfl
  rw [hd] at hdm
  rw [hs]
  obtain ⟨hdm0, hpred⟩ := List.mem_filter.1 hdm
  have hfk := h d hdm0
  simp only [fk_ref, Bool.or_eq_true] at hfk ⊢
  rcases hfk with hnull | hany
  · exact Or.inl hnull
  · obtain ⟨sx, hsx, hsq⟩ := List.any_eq_true.1 hany
    cases hm : sqlEq (cell sx "_id") idv with
    | true =>
        exfalso
        have hone : (st.sessions.filter (fun r => sqlEq (cell r "_id") idv)).any
            (fun r => sqlEq (cell r "_id") (cell d "session_id")) = true :=
          List.any_eq_true.2 ⟨sx, List.mem_filter.2 ⟨hsx, hm⟩, hsq⟩
        rw [hone] at hpred
        simp at hpred
    | false =>
        refine Or.inr (List.any_eq_true.2 ⟨sx, List.mem_filter.2 ⟨hsx, ?_⟩, hsq⟩)
        simp [hm]

theorem insert_session_details_pres (st : Store) (fs : List (String × Value))
    (h : detail_session_ok st) :
    detail_session_ok (insert_session_details st fs).1 := by
  unfold insert_session_details
  cases hi : insert_into session_details_schema st.session_details
      st.next_details_id fs with
  | error e => exact h
  | ok x =>
      obtain ⟨r, rows, nid⟩ := x
      dsimp only
      by_cases hfk : (fk_ref (cell r "session_id") st.sessions
          && fk_ref (cell r "exercise_id") st.exercises) = true
      · rw [if_pos hfk]
        intro d hdm
        have hshape := insert_into_ok_shape hi
        rcases List.mem_append.1 (hshape ▸ hdm) with hold | hnew
        · exact h d hold
        · have hdr : d = r := by simpa using hnew
          subst hdr
          have hfk2 := hfk
          rw [Bool.and_eq_true] at hfk2
          exact hfk2.1
      · rw [if_neg hfk]
        exact h

theorem update_session_pres (st : Store) (idv : Value) (fs : List (String × Value))
    (h : detail_session_ok st) : detail_session_ok (update_session st idv fs).1 := by
  unfold update_session
  split
  · exact h
  · split
    · exact h
    · cases hu : update_rows session_schema idv fs st.sessions with
    | error e => exact h
    | ok p =>
        obtain ⟨rows, ps⟩ := p
        dsimp only
        by_cases hc : (update_checks session_schema rows ps
            && parent_update_fk_ok st.session_details "session_id" ps rows) = true
        · rw [if_pos hc]
          have hc2 := hc
          rw [Bool.and_eq_true] at hc2
          have horph := hc2.2
          intro d hdm
          have hfk := h d hdm
          simp only [fk_ref, Bool.or_eq_true] at hfk ⊢
          rcases hfk with hnull | hany
          · exact Or.inl hnull
          · obtain ⟨sx, hsx, hsq⟩ := List.any_eq_true.1 hany
            cases hm : sqlEq (cell sx "_id") idv with
            | false =>
                exact Or.inr (List.any_eq_true.2
                  ⟨sx, update_rows_mem_of_unmatched hu hsx hm, hsq⟩)
            | true =>
                obtain ⟨s2, hp⟩ := update_rows_pair_of_matched hu hsx hm
                simp only [parent_update_fk_ok, List.all_eq_true] at horph
                have hdisj := horph (sx, s2) hp d hdm
                rw [Bool.or_eq_true] at hdisj
                rcases hdisj with hno | hyes
                · rw [hsq] at hno
                  simp at hno
                · exact Or.inr hyes
        · rw [if_neg hc]
          exact h

theorem update_session_details_pres (st : Store) (idv : Value)
    (fs : List (String × Value)) (h : detail_session_ok st) :
    detail_session_ok (update_session_details st idv fs).1 := by
  unfold update_session_details
  split
  · exact h
  · split
    · exact h
    · cases hu : update_rows session_details_schema idv fs st.session_details with
    | error e => exact h
    | ok p =>
        obtain ⟨rows, ps⟩ := p
        dsimp only
        by_cases hc : (update_checks session_details_schema rows ps
            && ps.all (fun p => fk_ref (cell p.2 "session_id") st.sessions
              && fk_ref (cell p.2 "exercise_id") st.exercises)) = true
        · rw [if_pos hc]
          intro d hdm
          rcases update_rows_mem_dest hu hdm with hold | ⟨p2, hp2, he⟩
          · exact h d hold
          · subst he
            have hc2 := hc
            rw [Bool.and_eq_true] at hc2
            have hall := hc2.2
            simp only [List.all_eq_true] at hall
            have hone := hall p2 hp2
            rw [Bool.and_eq_true] at hone
            exact hone.1
        · rw [if_neg hc]
          exact h

theorem delete_session_details_pres (st : Store) (idv : Value)
    (h : detail_session_ok st) :
    detail_session_ok (delete_session_details st idv).1 := by
  intro d hdm
  exact h d (List.mem_filter.1 hdm).1

theorem detail_session_ok_initial : detail_session_ok initial_store := by
  intro d hd
  simp [initial_store] at hd

theorem detail_session_ok_of_reachable :
    ∀ {st : Store}, Reachable st → detail_session_ok st := by
  intro st h
  induction h with
  | init => exact detail_session_ok_initial
  | ins_exercise st fs _ ih => exact insert_exercise_pres st fs ih
  | upd_exercise st idv fs _ ih => exact update_exercise_pres st idv fs ih
  | del_exercise st idv _ ih => exact delete_exercise_pres st idv ih
  | ins_session st fs _ ih => exact insert_session_pres st fs ih
  | upd_session st idv fs _ ih => exact update_session_pres st idv fs ih
  | del_session st idv _ ih => exact delete_session_pres st idv ih
  | ins_details st fs _ ih => exact insert_session_details_pres st fs ih
  | upd_details st idv fs _ ih => exact update_session_details_pres st idv fs ih
  | del_details st idv _ ih => exact delete_session_details_pres st idv ih
  | ins_intensity st fs _ ih => exact insert_intensity_pres st fs ih
  | upd_intensity st idv fs _ ih => exact update_intensity_pres st idv fs ih
  | del_intensity st idv _ ih => exact delete_intensity_pres st idv ih

/-! Claim theorems on the store. -/

/-- C2, corrected: in every reachable store state each session-detail row
belongs to at most one session: its session_id is NULL or references an
existing session row; and this is preserved by every insert and update on
session details. -/
theorem claim2_detail_session_fk :
    (∀ st : Store, Reachable st → detail_session_ok st)
    ∧ (∀ (st : Store) (fs : List (String × Value)), detail_session_ok st →
        detail_session_ok (insert_session_details st fs).1)
    ∧ (∀ (st : Store) (idv : Value) (fs : List (String × Value)),
        detail_session_ok st →
        detail_session_ok (update_session_details st idv fs).1) :=
  ⟨fun _ h => detail_session_ok_of_reachable h,
   fun st fs h => insert_session_details_pres st fs h,
   fun st idv fs h => update_session_details_pres st idv fs h⟩

/-- C2 witness: preservation applied to a concrete store and insert. -/
theorem claim2_witness :
    detail_session_ok (insert_session_details witness_store
        [("session_id", Value.int 1), ("reps_total", Value.int 5),
         ("sets", Value.int 3), ("intensity", Value.int 8)]).1 := by
  refine claim2_detail_session_fk.2.1 witness_store _ ?_
  intro d hd
  fin_cases hd <;> decide

/-- C2, counterexample to the claim as stated: session_id carries no NOT NULL
constraint, so inserting a session detail without a session_id succeeds from
the freshly initialized store and reaches a state holding a detail row whose
session_id is NULL, which therefore belongs to no session. -/
theorem claim2_counterexample :
    (insert_session_details initial_store
        [("reps_total", Value.int 1), ("sets", Value.int 1),
         ("intensity", Value.int 5)]).2 = none
    ∧ Reachable (insert_session_details initial_store
        [("reps_total", Value.int 1), ("sets", Value.int 1),
         ("intensity", Value.int 5)]).1
    ∧ ∃ d ∈ (insert_session_details initial_store
        [("reps_total", Value.int 1), ("sets", Value.int 1),
         ("intensity", Value.int 5)]).1.session_details,
        cell d "session_id" = Value.null := by
  refine ⟨by decide, Reachable.ins_details _ _ Reachable.init, ?_⟩
  exact ⟨[("_id", Value.int 1), ("session_id", Value.null),
      ("exercise_id", Value.null), ("weight_kg", Value.int 0),
      ("reps_total", Value.int 1), ("sets", Value.int 1),
      ("intensity", Value.int 5)], by decide, by decide⟩

/-- C5: deleting a session that is present in the store removes every
session-detail row whose session_id references it, and a subsequent get on
session details filtered by that session id returns the empty sequence. -/
theorem claim5_delete_session_cascade (st : Store) (sid : Int)
    (h : ∃ s ∈ st.sessions, cell s "_id" = Value.int sid) :
    (∀ d ∈ (delete_session st (Value.int sid)).1.session_details,
        sqlEq (cell d "session_id") (Value.int sid) = false)
    ∧ get_session_details (delete_session st (Value.int sid)).1
        [("session_id", Value.int sid)] = Except.ok [] := by
  obtain ⟨s0, hs0, hid⟩ := h
  have hdet : ∀ d ∈ (delete_session st (Value.int sid)).1.session_details,
      sqlEq (cell d "session_id") (Value.int sid) = false := by
    intro d hdm
    have hd : (delete_session st (Value.int sid)).1.session_details
        = st.session_details.filter (fun d' => !((st.sessions.filter
            (fun r => sqlEq (cell r "_id") (Value.int sid))).any
            (fun r => sqlEq (cell r "_id") (cell d' "session_id")))) := rfl
    rw [hd] at hdm
    obtain ⟨hdm0, hpred⟩ := List.mem_filter.1 hdm
    cases hq : sqlEq (cell d "session_id") (Value.int sid) with
    | false => rfl
    | true =>
        exfalso
        have hmem : s0 ∈ st.sessions.filter
            (fun r => sqlEq (cell r "_id") (Value.int sid)) :=
          List.mem_filter.2 ⟨hs0, by rw [hid]; simp [sqlEq]⟩
        have hone : ((st.sessions.filter
            (fun r => sqlEq (cell r "_id") (Value.int sid))).any
            (fun r => sqlEq (cell r "_id") (cell d "session_id"))) = true := by
          refine List.any_eq_true.2 ⟨s0, hmem, ?_⟩
          rw [hid, sqlEq_symm]
          exact hq
        rw [hone] at hpred
        simp at hpred
  refine ⟨hdet, ?_⟩
  unfold get_session_details select_rows
  have hcond : (([("session_id", Value.int sid)]).all
      (fun kv => session_details_schema.columns.contains kv.1)) = true := by
    simp [session_details_schema]
  rw [if_pos hcond]
  have hfilter : ((delete_session st (Value.int sid)).1.session_details.filter
      (fun r => ([("session_id", Value.int sid)]).all
        (fun kv => sqlEq (cell r kv.1) kv.2))) = [] := by
    refine List.filter_eq_nil.2 ?_
    intro d hdm
    simp [hdet d hdm]
  rw [hfilter]
  rfl

/-- C5 witness: cascade on the concrete store. -/
theorem claim5_witness :
    (∀ d ∈ (delete_session witness_store (Value.int 1)).1.session_details,
        sqlEq (cell d "session_id") (Value.int 1) = false)
    ∧ get_session_details (delete_session witness_store (Value.int 1)).1
        [("session_id", Value.int 1)] = Except.ok [] :=
  claim5_delete_session_cascade witness_store 1
    ⟨[("_id", Value.int 1), ("timestamp", Value.text "CURRENT_TIMESTAMP")],
     by decide, by decide⟩

/-- C6: deleting an exercise that an existing session-detail row references
raises a constraint violation and leaves the store unchanged; the exercise
row is still present and no session-detail row was removed. -/
theorem claim6_delete_exercise_restrict (st : Store) (eid : Int)
    (e : Row) (he : e ∈ st.exercises) (hid : cell e "_id" = Value.int eid)
    (d : Row) (hd : d ∈ st.session_details)
    (href : cell d "exercise_id" = Value.int eid) :
    delete_exercise st (Value.int eid) = (st, some DbError.integrityError)
    ∧ (delete_exercise st (Value.int eid)).1 = st
    ∧ e ∈ (delete_exercise st (Value.int eid)).1.exercises
    ∧ (delete_exercise st (Value.int eid)).1.session_details
        = st.session_details := by
  have hcond : ((st.exercises.filter
      (fun r => sqlEq (cell r "_id") (Value.int eid))).any (fun r =>
        (st.session_details.any
          (fun d' => sqlEq (cell r "_id") (cell d' "exercise_id")))
        && !((st.exercises.filter (fun r' => !(sqlEq (cell r' "_id") (Value.int eid)))).any
          (fun t => sqlEq (cell t "_id") (cell r "_id"))))) = true := by
    refine List.any_eq_true.2 ⟨e, List.mem_filter.2 ⟨he, by rw [hid]; simp [sqlEq]⟩, ?_⟩
    rw [Bool.and_eq_true]
    constructor
    · refine List.any_eq_true.2 ⟨d, hd, ?_⟩
      rw [hid, href]
      simp [sqlEq]
    · rw [Bool.not_eq_true']
      rw [List.any_eq_false]
      intro t ht
      obtain ⟨-, htk⟩ := List.mem_filter.1 ht
      rw [hid]
      rw [Bool.not_eq_true'] at htk
      simp [htk]
  have hres : delete_exercise st (Value.int eid)
      = (st, some DbError.integrityError) := by
    unfold delete_exercise
    dsimp only
    rw [if_pos hcond]
  refine ⟨hres, by rw [hres], ?_, by rw [hres]⟩
  rw [hres]
  exact he

/-- C6 witness: the restriction on the concrete store. -/
theorem claim6_witness :
    delete_exercise witness_store (Value.int 1)
      = (witness_store, some DbError.integrityError)
    ∧ (delete_exercise witness_store (Value.int 1)).1.session_details
        = witness_store.session_details :=
  ⟨(claim6_delete_exercise_restrict witness_store 1
      [("_id", Value.int 1), ("name", Value.text "Squat"),
       ("acronym", Value.text "SQ"), ("description", Value.null)]
      (by decide) (by decide)
      [("_id", Value.int 1), ("session_id", Value.int 1),
       ("exercise_id", Value.int 1), ("weight_kg", Value.int 100),
       ("reps_total", Value.int 5), ("sets", Value.int 3),
       ("intensity", Value.int 8)]
      (by decide) (by decide)).1,
   (claim6_delete_exercise_restrict witness_store 1
      [("_id", Value.int 1), ("name", Value.text "Squat"),
       ("acronym", Value.text "SQ"), ("description", Value.null)]
      (by decide) (by decide)
      [("_id", Value.int 1), ("session_id", Value.int 1),
       ("exercise_id", Value.int 1), ("weight_kg", Value.int 100),
       ("reps_total", Value.int 5), ("sets", Value.int 3),
       ("intensity", Value.int 8)]
      (by decide) (by decide)).2.2.2⟩

/-- C7: a successful partial update by id changes only the named fields of
the matching rows: the sessions, session-details and intensity tables are
untouched, every non-matching exercise row is unchanged, and every column
outside the update mapping keeps its prior value on every row. -/
theorem claim7_update_exercise_frame (st : Store) (idv : Value)
    (fields : List (String × Value)) (st' : Store) (hne : fields ≠ [])
    (hok : update_exercise st idv fields = (st', none)) :
    st'.sessions = st.sessions
    ∧ st'.session_details = st.session_details
    ∧ st'.intensities = st.intensities
    ∧ List.Forall₂ (fun r r' =>
        (sqlEq (cell r "_id") idv = false → r' = r)
        ∧ (∀ c : String, (∀ kv ∈ fields, kv.1 ≠ c) → cell r' c = cell r c))
      st.exercises st'.exercises := by
  unfold update_exercise at hok
  split at hok
  · simp at hok
  · split at hok
    · simp at hok
    · cases hu : update_rows exercise_schema idv fields st.exercises with
    | error e => rw [hu] at hok; simp at hok
    | ok p =>
        rw [hu] at hok
        obtain ⟨rows, ps⟩ := p
        dsimp only at hok
        split at hok
        · simp only [Prod.mk.injEq] at hok
          obtain ⟨h1, -⟩ := hok
          subst h1
          refine ⟨rfl, rfl, rfl, ?_⟩
          have hspec := update_rows_spec hu
          refine List.Forall₂.imp ?_ hspec
          intro r r' hr
          refine ⟨hr.1, ?_⟩
          intro c hc'
          cases hm : sqlEq (cell r "_id") idv with
          | false => rw [hr.1 hm]
          | true => exact apply_fields_frame fields r r' (hr.2 hm) c hc'
        · simp at hok

/-- C7 witness: updating only the description of exercise 1 in the concrete
store succeeds and leaves all other data unchanged. -/
theorem claim7_witness :
    (update_exercise witness_store (Value.int 1)
        [("description", Value.text "low bar")]).1.session_details
      = witness_store.session_details
    ∧ List.Forall₂ (fun r r' =>
        (sqlEq (cell r "_id") (Value.int 1) = false → r' = r)
        ∧ (∀ c : String,
            (∀ kv ∈ [("description", Value.text "low bar")], kv.1 ≠ c)
            → cell r' c = cell r c))
      witness_store.exercises
      (update_exercise witness_store (Value.int 1)
        [("description", Value.text "low bar")]).1.exercises := by
  have hok : update_exercise witness_store (Value.int 1)
      [("description", Value.text "low bar")]
      = ((update_exercise witness_store (Value.int 1)
          [("description", Value.text "low bar")]).1, none) := by decide
  have h := claim7_update_exercise_frame witness_store (Value.int 1)
      [("description", Value.text "low bar")] _ (by decide) hok
  exact ⟨h.2.1, h.2.2.2⟩

/-- C8: a get whose (valid) filters match no row returns the empty sequence
rather than raising, and a delete or update by an id present on no row
completes without error and leaves the store unchanged.  The update mapping
is nonempty with valid column names: an empty mapping makes the builder emit
invalid SQL and an unknown column is a statement-level error, both raised
regardless of whether the id is present. -/
theorem claim8_missing_rows_noop (st : Store) (idv : Value)
    (filters : List (String × Value))
    (hfilters : (filters.all
        (fun kv => exercise_schema.columns.contains kv.1)) = true)
    (hnomatch : ∀ r ∈ st.exercises,
        (filters.all (fun kv => sqlEq (cell r kv.1) kv.2)) = false)
    (fields : List (String × Value)) (hne : fields ≠ [])
    (hfields : (fields.all
        (fun kv => exercise_schema.columns.contains kv.1)) = true)
    (hnoid : ∀ r ∈ st.exercises, sqlEq (cell r "_id") idv = false) :
    get_exercise st filters = Except.ok []
    ∧ delete_exercise st idv = (st, none)
    ∧ update_exercise st idv fields = (st, none) := by
  refine ⟨?_, ?_, ?_⟩
  · unfold get_exercise select_rows
    rw [if_pos hfilters]
    have hfil : st.exercises.filter
        (fun r => filters.all (fun kv => sqlEq (cell r kv.1) kv.2)) = [] :=
      List.filter_eq_nil.2 (fun r hr => by simp [hnomatch r hr])
    rw [hfil]
    rfl
  · unfold delete_exercise
    dsimp only
    have hdel : st.exercises.filter (fun r => sqlEq (cell r "_id") idv) = [] :=
      List.filter_eq_nil.2 (fun r hr => by simp [hnoid r hr])
    have hkept : st.exercises.filter (fun r => !(sqlEq (cell r "_id") idv))
        = st.exercises :=
      List.filter_eq_self.2 (fun r hr => by simp [hnoid r hr])
    rw [hdel, hkept]
    simp
  · unfold update_exercise
    have hemp : fields.isEmpty = false := by
      cases fields with
      | nil => exact absurd rfl hne
      | cons a l => rfl
    have hpre : (!(fields.all
        (fun kv => exercise_schema.columns.contains kv.1))) = false := by
      rw [hfields]
      rfl
    simp only [hemp, hpre, Bool.false_eq_true, if_false]
    rw [@update_rows_no_match exercise_schema idv fields st.exercises hnoid]
    dsimp only
    simp [update_checks, parent_update_fk_ok]

/-- C8 witness: a filter matching nothing and an absent id on the concrete
store. -/
theorem claim8_witness :
    get_exercise witness_store [("acronym", Value.text "DL")] = Except.ok []
    ∧ delete_exercise witness_store (Value.int 99) = (witness_store, none)
    ∧ update_exercise witness_store (Value.int 99)
        [("description", Value.text "x")] = (witness_store, none) :=
  claim8_missing_rows_noop witness_store (Value.int 99)
    [("acronym", Value.text "DL")] (by decide)
    (by intro r hr; fin_cases hr <;> decide)
    [("description", Value.text "x")] (by decide) (by decide)
    (by intro r hr; fin_cases hr <;> decide)

example : (_construct_insert_query "exercise"
    [("name", Value.text "Squat"), ("acronym", Value.text "SQ")]) =
    ("INSERT INTO exercise (name, acronym) VALUES (?,?)",
     some [Value.text "Squat", Value.text "SQ"]) := by decide

example : (_construct_update_query "exercise" (Value.int 3)
    [("name", Value.text "x"), ("description", Value.null)]) =
    ("UPDATE exercise SET name=?, description=? WHERE _id=?",
     [Value.text "x", Value.null, Value.int 3]) := by decide

example : (_construct_select_query "exercise"
    [("acronym", Value.text "SQ"), ("name", Value.text "Squat")]) =
    ("SELECT * FROM exercise WHERE acronym=? AND name=?",
     some [Value.text "SQ", Value.text "Squat"]) := by decide

example : (_construct_select_query "exercise" ([] : List (String × Value))) =
    ("SELECT * FROM exercise", none) := by decide

example : (_construct_insert_query "session" ([] : List (String × Value))) =
    ("INSERT INTO session", none) := by decide

example : (_construct_delete_query "session" (Value.int 7)) =
    ("DELETE FROM session WHERE _id=?", [Value.int 7]) := by decide

end GymDB
